import Mathlib

set_option autoImplicit false

namespace DIYTools

/-- Python-style values: results of the example entry points are Python dicts
whose values are strings, numbers, booleans, lists and nested dicts.  Python
ints and floats are kept apart (`isinstance(a, int)` distinguishes them);
floats are idealized as exact rationals.  `approx` stands for results of
`math.sqrt` / non-integral `**`, which are binary64 floats with no exact
rational embedding; no claim inspects their numeric value. -/
inductive Val where
  | none
  | b (bb : Bool)
  | i (n : ℤ)
  | f (q : ℚ)
  | s (str : String)
  | arr (xs : List Val)
  | obj (fields : List (String × Val))
  | approx (tag : String) (args : List Val)

/-- Look up a key in a Python-dict value; `Option.none` when the value is not
a dict or has no such key (first occurrence wins; the dicts built by this
code never repeat a key). -/
def Val.get : Val → String → Option Val
  | .obj fields, k => (fields.find? (fun p => p.1 == k)).map Prod.snd
  | _, _ => Option.none

/-- Whether a value is a Python dict (a "mapping"). -/
def Val.isObj : Val → Bool
  | .obj _ => true
  | _ => false

/-! ### String helpers shared by the embedded modules

Python strings are modelled as Lean `String`s, processed as `List Char`.
`Char.toLower` agrees with Python lowercasing on ASCII, which is all the
source manipulates. -/

/-- The characters Python `str.strip()` and `\s` treat as whitespace. -/
def isPySpace (c : Char) : Bool :=
  c = ' ' || c = '\t' || c = '\n' || c = '\r' || c = '\x0b' || c = '\x0c'

/-- Python `str.strip()`. -/
def pyStrip (s : String) : String :=
  String.mk (((s.data.dropWhile isPySpace).reverse.dropWhile isPySpace).reverse)

/-- Python `str.lower()` (ASCII). -/
def lowerStr (s : String) : String := String.mk (s.data.map Char.toLower)

/-- Whether `cs` starts with `pat` (exact). -/
def startsWithL : List Char → List Char → Bool
  | [], _ => true
  | _ :: _, [] => false
  | p :: ps, c :: cs => p == c && startsWithL ps cs

/-- Whether `cs` starts with `pat`, ignoring ASCII case. -/
def startsWithCI : List Char → List Char → Bool
  | [], _ => true
  | _ :: _, [] => false
  | p :: ps, c :: cs => p.toLower == c.toLower && startsWithCI ps cs

/-- Split `cs` at the first (exact) occurrence of `pat`: returns the part
before the occurrence and the suffix starting at the occurrence. -/
def splitAtSub (pat : List Char) : ℕ → List Char → Option (List Char × List Char)
  | 0, _ => Option.none
  | fuel + 1, cs =>
    if startsWithL pat cs then some ([], cs)
    else match cs with
      | [] => Option.none
      | c :: rest => (splitAtSub pat fuel rest).map (fun pr => (c :: pr.1, pr.2))

/-- Split `cs` at the first occurrence of `pat` ignoring ASCII case: returns
the part before the occurrence and the suffix starting at the occurrence. -/
def splitAtSubCI (pat : List Char) : ℕ → List Char → Option (List Char × List Char)
  | 0, _ => Option.none
  | fuel + 1, cs =>
    if startsWithCI pat cs then some ([], cs)
    else match cs with
      | [] => Option.none
      | c :: rest => (splitAtSubCI pat fuel rest).map (fun pr => (c :: pr.1, pr.2))

/-- Whether `pat` occurs in `cs`. -/
def containsSub (pat cs : List Char) : Bool := (splitAtSub pat (cs.length + 1) cs).isSome

/-- `s.startswith(pat)` (list-based, so that closed terms reduce). -/
def strStartsWith (s pat : String) : Bool := startsWithL pat.data s.data

/-- Python `s.split(c)` for a single-character separator, keeping empty
pieces. -/
def strSplitOnCharAux (c : Char) : List Char → List Char → List String
  | [], cur => [String.mk cur.reverse]
  | x :: r, cur =>
    if x = c then String.mk cur.reverse :: strSplitOnCharAux c r []
    else strSplitOnCharAux c r (x :: cur)

/-- Python `s.split(c)` on strings. -/
def strSplitOnChar (c : Char) (s : String) : List String := strSplitOnCharAux c s.data []

/-- `sep.join(xs)` (list-based). -/
def strIntercalate (sep : String) : List String → String
  | [] => ""
  | [x] => x
  | x :: y :: r => x ++ sep ++ strIntercalate sep (y :: r)

/-- Python `s[:n]` (character based). -/
def strTake (s : String) (n : ℕ) : String := String.mk (s.data.take n)

/-- Python `str.count(sub)`: non-overlapping occurrence count. -/
def countSubAux (pat : List Char) : ℕ → List Char → ℕ → ℕ
  | 0, _, acc => acc
  | fuel + 1, cs, acc =>
    if startsWithL pat cs then countSubAux pat fuel (cs.drop pat.length) (acc + 1)
    else match cs with
      | [] => acc
      | _ :: rest => countSubAux pat fuel rest acc

/-- Python `str.count(sub)` on strings. -/
def countSub (s sub : String) : ℕ := countSubAux sub.data (s.length + 1) s.data 0

/-! ### Python dict-of-attributes helpers

`dict(attrs)` keeps the first insertion position of a key and the last
assigned value. -/

/-- Assignment `d[k] = v` on an association list modelling a Python dict. -/
def dictUpsert (d : List (String × String)) (k v : String) : List (String × String) :=
  if (d.find? (fun p => p.1 == k)).isSome then
    d.map (fun p => if p.1 == k then (k, v) else p)
  else d ++ [(k, v)]

/-- Python `dict(attrs)`. -/
def toDict (attrs : List (String × String)) : List (String × String) :=
  attrs.foldl (fun d p => dictUpsert d p.1 p.2) []

/-- Python `d.get(k, dflt)` on an attribute dict. -/
def dget (d : List (String × String)) (k dflt : String) : String :=
  ((d.find? (fun p => p.1 == k)).map Prod.snd).getD dflt

/-- Python `k in d` on an attribute dict. -/
def dhas (d : List (String × String)) (k : String) : Bool :=
  (d.find? (fun p => p.1 == k)).isSome

namespace WebScraper

/-! ### Embedding of `src/examples/python/web_scraper.py`

The scanner events of `html.parser.HTMLParser` are modelled by a tokenizer
covering ordinary markup: start tags with quoted/unquoted attributes
(tag and attribute names lowercased, a self-closing tag firing a start and
an end event, as the default `handle_startendtag` does), end tags, comments
and declarations (skipped), raw-text mode inside `script`/`style`, and
character data.  Character/entity references and the recovery paths for
severely malformed markup are not modelled; the claims quantify over the
scanner's output tables, not over these tokenizer corners. -/

/-- A scanner event delivered to the `SimpleHTMLParser` handlers. -/
inductive Tok where
  | tstart (name : String) (attrs : List (String × String))
  | tclose (name : String)
  | tdata (txt : String)

/-- Characters allowed inside a tag name (scan stops at whitespace, `/`, `>`). -/
def isTagNameChar (c : Char) : Bool := !(isPySpace c || c = '/' || c = '>')

/-- The single-quote character. -/
def squote : Char := Char.ofNat 39

/-- Parse the attribute list of a start tag, tolerant like
`HTMLParser.attrfind_tolerant`: names lowercased, values double-quoted,
single-quoted or unquoted; a valueless attribute gets the empty string.
Returns the attributes, whether the tag was self-closing, and the input
after the closing `>`; `Option.none` when the tag never closes. -/
def parseAttrs : ℕ → List Char → List (String × String) →
    Option (List (String × String) × Bool × List Char)
  | 0, _, _ => Option.none
  | fuel + 1, cs, acc =>
    let cs1 := cs.dropWhile isPySpace
    match cs1 with
    | [] => Option.none
    | '>' :: r => some (acc.reverse, false, r)
    | '/' :: '>' :: r => some (acc.reverse, true, r)
    | '/' :: r => parseAttrs fuel r acc
    | _ =>
      let nm := cs1.takeWhile (fun c => !(isPySpace c || c = '=' || c = '/' || c = '>'))
      if nm.isEmpty then
        match cs1 with
        | _ :: r => parseAttrs fuel r acc
        | [] => Option.none
      else
        let rest1 := (cs1.drop nm.length).dropWhile isPySpace
        match rest1 with
        | '=' :: r2 =>
          let r3 := r2.dropWhile isPySpace
          match r3 with
          | '"' :: r4 =>
            let v := r4.takeWhile (fun c => c ≠ '"')
            parseAttrs fuel (r4.drop (v.length + 1))
              ((lowerStr (String.mk nm), String.mk v) :: acc)
          | q :: r4 =>
            if q = squote then
              let v := r4.takeWhile (fun c => c ≠ squote)
              parseAttrs fuel (r4.drop (v.length + 1))
                ((lowerStr (String.mk nm), String.mk v) :: acc)
            else
              let v := r3.takeWhile (fun c => !(isPySpace c || c = '>'))
              parseAttrs fuel (r3.drop v.length)
                ((lowerStr (String.mk nm), String.mk v) :: acc)
          | [] => Option.none
        | _ => parseAttrs fuel rest1 ((lowerStr (String.mk nm), "") :: acc)

/-- One pass of the tokenizer; `fuel` bounds the number of emitted tokens
(each step consumes at least one input character). -/
def tokenizeAux : ℕ → List Char → List Tok → List Tok
  | 0, _, acc => acc.reverse
  | _ + 1, [], acc => acc.reverse
  | fuel + 1, '<' :: rest, acc =>
    match rest with
    | '/' :: r2 =>
      let nm := r2.takeWhile (fun c => !(isPySpace c || c = '>'))
      let r3 := (r2.drop nm.length).dropWhile (fun c => c ≠ '>')
      (match r3 with
       | [] => acc.reverse
       | _ :: r4 =>
         if nm.isEmpty then tokenizeAux fuel r4 acc
         else tokenizeAux fuel r4 (Tok.tclose (lowerStr (String.mk nm)) :: acc))
    | '!' :: '-' :: '-' :: r2 =>
      (match splitAtSub ['-', '-', '>'] (r2.length + 1) r2 with
       | some (_, suf) => tokenizeAux fuel (suf.drop 3) acc
       | Option.none => acc.reverse)
    | '!' :: r2 =>
      (match (r2.dropWhile (fun c => c ≠ '>')) with
       | [] => acc.reverse
       | _ :: r3 => tokenizeAux fuel r3 acc)
    | '?' :: r2 =>
      (match (r2.dropWhile (fun c => c ≠ '>')) with
       | [] => acc.reverse
       | _ :: r3 => tokenizeAux fuel r3 acc)
    | c :: r2 =>
      if c.isAlpha then
        let nm := (c :: r2).takeWhile isTagNameChar
        let afterName := (c :: r2).drop nm.length
        match parseAttrs (afterName.length + 1) afterName [] with
        | some (attrs, selfClosing, after) =>
          let tag := lowerStr (String.mk nm)
          if selfClosing then
            tokenizeAux fuel after (Tok.tclose tag :: Tok.tstart tag attrs :: acc)
          else if tag = "script" || tag = "style" then
            match splitAtSubCI ('<' :: '/' :: tag.data) (after.length + 1) after with
            | some (body, suf) =>
              tokenizeAux fuel suf (Tok.tdata (String.mk body) :: Tok.tstart tag attrs :: acc)
            | Option.none =>
              (Tok.tdata (String.mk after) :: Tok.tstart tag attrs :: acc).reverse
          else tokenizeAux fuel after (Tok.tstart tag attrs :: acc)
        | Option.none => acc.reverse
      else if c = '<' then
        tokenizeAux fuel (c :: r2) (Tok.tdata "<" :: acc)
      else
        let dat := r2.takeWhile (fun x => x ≠ '<')
        tokenizeAux fuel (r2.drop dat.length) (Tok.tdata (String.mk ('<' :: (c :: dat))) :: acc)
    | [] => (Tok.tdata "<" :: acc).reverse
  | fuel + 1, cs, acc =>
    let dat := cs.takeWhile (fun x => x ≠ '<')
    tokenizeAux fuel (cs.drop dat.length) (Tok.tdata (String.mk dat) :: acc)

/-- Tokenize a whole input string. -/
def tokenize (s : String) : List Tok := tokenizeAux (s.length + 1) s.data []

/-- A link recorded by `handle_starttag` for an `<a href=…>` tag; the
`absolute` field models the `absolute_href` key that `extract_links` adds
to the link dict when a base URL is given. -/
structure LinkRec where
  href : String
  title : String
  rel : String
  absolute : Option String := Option.none

/-- An image recorded for an `<img src=…>` tag. -/
structure ImageRec where
  src : String
  alt : String
  title : String

/-- The state of `SimpleHTMLParser`: the collected tables plus the single
capture context (`current_tag`, `current_data`). -/
structure SimpleHTMLParser where
  links : List LinkRec
  images : List ImageRec
  h1 : List String
  h2 : List String
  h3 : List String
  h4 : List String
  h5 : List String
  h6 : List String
  paragraphs : List String
  meta_tags : List (List (String × String))
  current_tag : Option String
  current_data : String

/-- The heading levels, in the order of the `self.headings` dict. -/
def headingLevels : List String := ["h1", "h2", "h3", "h4", "h5", "h6"]

/-- The fresh state built by `SimpleHTMLParser.__init__`. -/
def SimpleHTMLParser.init : SimpleHTMLParser :=
  ⟨[], [], [], [], [], [], [], [], [], [], Option.none, ""⟩

/-- The heading list of a given level (`self.headings[tag]`). -/
def SimpleHTMLParser.headingsAt (st : SimpleHTMLParser) : String → List String
  | "h1" => st.h1
  | "h2" => st.h2
  | "h3" => st.h3
  | "h4" => st.h4
  | "h5" => st.h5
  | "h6" => st.h6
  | _ => []

/-- Append a captured heading to its level list. -/
def SimpleHTMLParser.appendHeading (st : SimpleHTMLParser) (tag txt : String) :
    SimpleHTMLParser :=
  match tag with
  | "h1" => { st with h1 := st.h1 ++ [txt] }
  | "h2" => { st with h2 := st.h2 ++ [txt] }
  | "h3" => { st with h3 := st.h3 ++ [txt] }
  | "h4" => { st with h4 := st.h4 ++ [txt] }
  | "h5" => { st with h5 := st.h5 ++ [txt] }
  | "h6" => { st with h6 := st.h6 ++ [txt] }
  | _ => st

/-- `SimpleHTMLParser.handle_starttag`. -/
def SimpleHTMLParser.handle_starttag (st : SimpleHTMLParser) (tag : String)
    (attrs : List (String × String)) : SimpleHTMLParser :=
  let ad := toDict attrs
  if tag = "a" && dhas ad "href" then
    { st with links := st.links ++ [⟨dget ad "href" "", dget ad "title" "", dget ad "rel" "", Option.none⟩] }
  else if tag = "img" && dhas ad "src" then
    { st with images := st.images ++ [⟨dget ad "src" "", dget ad "alt" "", dget ad "title" ""⟩] }
  else if tag = "meta" then
    { st with meta_tags := st.meta_tags ++ [ad] }
  else if headingLevels.contains tag then
    { st with current_tag := some tag, current_data := "" }
  else if tag = "p" then
    { st with current_tag := some "p", current_data := "" }
  else st

/-- `SimpleHTMLParser.handle_data`. -/
def SimpleHTMLParser.handle_data (st : SimpleHTMLParser) (dat : String) :
    SimpleHTMLParser :=
  if st.current_tag.isSome then { st with current_data := st.current_data ++ pyStrip dat }
  else st

/-- `SimpleHTMLParser.handle_endtag`. -/
def SimpleHTMLParser.handle_endtag (st : SimpleHTMLParser) (tag : String) :
    SimpleHTMLParser :=
  let st1 :=
    if st.current_tag == some tag && st.current_data != "" then
      if headingLevels.contains tag then st.appendHeading tag st.current_data
      else if tag = "p" then { st with paragraphs := st.paragraphs ++ [st.current_data] }
      else st
    else st
  { st1 with current_tag := Option.none, current_data := "" }

/-- Deliver one scanner event to the handlers. -/
def SimpleHTMLParser.step (st : SimpleHTMLParser) : Tok → SimpleHTMLParser
  | .tstart nm attrs => st.handle_starttag nm attrs
  | .tclose nm => st.handle_endtag nm
  | .tdata d => st.handle_data d

/-- `parser = SimpleHTMLParser(); parser.feed(content)`. -/
def SimpleHTMLParser.feed (content : String) : SimpleHTMLParser :=
  (tokenize content).foldl SimpleHTMLParser.step SimpleHTMLParser.init

/-- All headings of the document: the per-level lists in the order of the
`self.headings` dict (h1 first), as iterated by the extractors. -/
def SimpleHTMLParser.allHeadings (st : SimpleHTMLParser) : List (String × String) :=
  headingLevels.flatMap (fun lvl => ((st.headingsAt lvl).filter (fun h => h ≠ "")).map (fun h => (lvl, h)))

/-! ### Model of `urllib.parse.urlsplit` / `urljoin` / `urlparse(..).netloc`

Translated from CPython's `urllib/parse.py`, restricted to what the scraper
exercises: scheme and netloc recognition (with the `Invalid IPv6 URL`
`ValueError` for a netloc containing an unmatched bracket), fragment and
query splitting, and RFC 3986 reference resolution without parameter
(`;`) handling. -/

/-- The characters allowed in a URL scheme. -/
def isSchemeChar (c : Char) : Bool := c.isAlphanum || c = '+' || c = '-' || c = '.'

/-- `urlsplit`, reduced to `(scheme, netloc, rest)` where `rest` still
carries path, query and fragment.  Raises (returns `.error`) exactly when
CPython raises `ValueError("Invalid IPv6 URL")`. -/
def urlsplitE (u : String) : Except String (String × String × String) :=
  let cs := u.data
  let parts :=
    match cs.findIdx? (fun c => c = ':') with
    | some i =>
      if 0 < i then
        let pre := cs.take i
        match pre with
        | c0 :: _ =>
          if c0.isAlpha && pre.all isSchemeChar then
            (String.mk (pre.map Char.toLower), cs.drop (i + 1))
          else ("", cs)
        | [] => ("", cs)
      else ("", cs)
    | Option.none => ("", cs)
  let scheme := parts.1
  let rest := parts.2
  if startsWithL ['/', '/'] rest then
    let nl := (rest.drop 2).takeWhile (fun c => !(c = '/' || c = '?' || c = '#'))
    if (nl.contains '[' && !(nl.contains ']')) || (nl.contains ']' && !(nl.contains '[')) then
      .error "Invalid IPv6 URL"
    else .ok (scheme, String.mk nl, String.mk ((rest.drop 2).drop nl.length))
  else .ok (scheme, "", String.mk rest)

/-- `urlparse(u).netloc`. -/
def netlocOfE (u : String) : Except String String := do
  let t ← urlsplitE u
  pure t.2.1

/-- Split off the fragment (after the first `#`). -/
def splitFragment (s : String) : String × String :=
  match s.data.findIdx? (fun c => c = '#') with
  | some i => (String.mk (s.data.take i), String.mk (s.data.drop (i + 1)))
  | Option.none => (s, "")

/-- Split off the query (after the first `?`). -/
def splitQuery (s : String) : String × String :=
  match s.data.findIdx? (fun c => c = '?') with
  | some i => (String.mk (s.data.take i), String.mk (s.data.drop (i + 1)))
  | Option.none => (s, "")

/-- The `uses_relative` scheme list of `urllib.parse`. -/
def usesRelative : List String :=
  ["", "ftp", "http", "gopher", "nntp", "imap", "wais", "file", "https",
   "shttp", "mms", "prospero", "rtsp", "rtspu", "sftp", "svn", "svn+ssh",
   "ws", "wss"]

/-- `urlunsplit`. -/
def urlunsplit (scheme netloc path query fragment : String) : String :=
  let url :=
    if netloc ≠ "" || strStartsWith path "//" then
      let p := if path ≠ "" && !(strStartsWith path "/") then "/" ++ path else path
      "//" ++ netloc ++ p
    else path
  let url := if scheme ≠ "" then scheme ++ ":" ++ url else url
  let url := if query ≠ "" then url ++ "?" ++ query else url
  if fragment ≠ "" then url ++ "#" ++ fragment else url

/-- `urljoin(base, url)` in the `Except` monad, propagating the
`Invalid IPv6 URL` failure of `urlsplit`. -/
def urljoinE (base url : String) : Except String String :=
  if base = "" then .ok url
  else if url = "" then .ok base
  else do
    let (bscheme, bnetloc, brest) ← urlsplitE base
    let (uscheme0, unetloc, urest) ← urlsplitE url
    let scheme := if uscheme0 = "" then bscheme else uscheme0
    if scheme ≠ bscheme || !(usesRelative.contains scheme) then pure url
    else do
      let (bpf, _bfragment) := splitFragment brest
      let (bpath, bquery) := splitQuery bpf
      let (upf, ufragment) := splitFragment urest
      let (upath, uquery) := splitQuery upf
      if unetloc ≠ "" then pure (urlunsplit scheme unetloc upath uquery ufragment)
      else if upath = "" then
        pure (urlunsplit scheme bnetloc bpath (if uquery = "" then bquery else uquery) ufragment)
      else
        let segments :=
          if strStartsWith upath "/" then strSplitOnChar '/' upath
          else
            let baseParts0 := strSplitOnChar '/' bpath
            let baseParts := if baseParts0.getLast? = some "" then baseParts0 else baseParts0.dropLast
            let segs0 := baseParts ++ strSplitOnChar '/' upath
            match segs0 with
            | [] => []
            | [x] => [x]
            | x :: xs => x :: ((xs.dropLast.filter (fun sg => sg ≠ "")) ++ [xs.getLast!])
        let resolved := segments.foldl
          (fun acc seg =>
            if seg = ".." then acc.dropLast
            else if seg = "." then acc
            else acc ++ [seg]) []
        let resolved :=
          if segments.getLast? = some "." || segments.getLast? = some ".." then resolved ++ [""]
          else resolved
        let joined := strIntercalate "/" resolved
        pure (urlunsplit scheme bnetloc (if joined = "" then "/" else joined) uquery ufragment)

/-! ### The extraction options and `extract_links` -/

/-- The `options` dict of the scraper, reduced to the keys the code reads,
with the defaults the `options.get` calls supply. -/
structure Options where
  base_url : String := ""
  filter_external : Bool := false
  include_headings : Bool := true
  max_length : ℕ := 5000

/-- `link.get("absolute_href", link["href"])`. -/
def LinkRec.effHref (lk : LinkRec) : String := lk.absolute.getD lk.href

/-- The link dict as placed in the result lists. -/
def LinkRec.toVal (lk : LinkRec) : Val :=
  .obj ([("href", .s lk.href), ("title", .s lk.title), ("rel", .s lk.rel)] ++
    (match lk.absolute with
     | some a => [("absolute_href", Val.s a)]
     | Option.none => []))

/-- The categorization loop of `extract_links` (lines 151-166): anchors
(`#` prefix), then absolute http(s) links split internal/external by
netloc against the base URL, everything else internal. -/
def categorize (links : List LinkRec) (base_url : String) :
    Except String (List LinkRec × List LinkRec × List LinkRec) :=
  links.foldlM
    (fun acc lk => do
      let href := lk.effHref
      if strStartsWith href "#" then pure (acc.1, acc.2.1, acc.2.2 ++ [lk])
      else if strStartsWith href "http://" || strStartsWith href "https://" then
        if base_url ≠ "" then do
          let hn ← netlocOfE href
          let bn ← netlocOfE base_url
          if hn = bn then pure (acc.1 ++ [lk], acc.2.1, acc.2.2)
          else pure (acc.1, acc.2.1 ++ [lk], acc.2.2)
        else pure (acc.1, acc.2.1 ++ [lk], acc.2.2)
      else pure (acc.1 ++ [lk], acc.2.1, acc.2.2))
    ([], [], [])

/-- Lines 139-142: with a base URL, add `absolute_href` to every link via
`urljoin` (which may raise). -/
def resolveLinks (base_url : String) (links : List LinkRec) : Except String (List LinkRec) :=
  if base_url ≠ "" then
    links.mapM (fun lk => do
      let ab ← urljoinE base_url lk.href
      pure { lk with absolute := some ab })
  else pure links

/-- Lines 144-149: the `filter_external` filtering (only with a base URL). -/
def filterExternalLinks (opts : Options) (links1 : List LinkRec) :
    Except String (List LinkRec) :=
  if opts.base_url ≠ "" ∧ opts.filter_external then do
    let bd ← netlocOfE opts.base_url
    links1.filterM (fun lk => do
      let n ← netlocOfE lk.effHref
      pure (n == bd))
  else pure links1

/-- `extract_links`. -/
def extract_links (parser : SimpleHTMLParser) (_content : String) (opts : Options) :
    Except String Val := do
  let links1 ← resolveLinks opts.base_url parser.links
  let links ← filterExternalLinks opts links1
  let (internal, external, anchors) ← categorize links opts.base_url
  pure (.obj [
    ("success", .b true),
    ("total_links", .i links.length),
    ("internal_links", .arr ((internal.take 20).map LinkRec.toVal)),
    ("external_links", .arr ((external.take 20).map LinkRec.toVal)),
    ("anchor_links", .arr ((anchors.take 10).map LinkRec.toVal)),
    ("stats", .obj [
      ("internal_count", .i internal.length),
      ("external_count", .i external.length),
      ("anchor_count", .i anchors.length)])])

/-! ### `extract_text` -/

/-- `re.sub(r"\s+", " ", s)`: collapse every whitespace run to one space. -/
def collapseWsAux : ℕ → List Char → List Char
  | 0, _ => []
  | _ + 1, [] => []
  | fuel + 1, c :: rest =>
    if isPySpace c then ' ' :: collapseWsAux fuel (rest.dropWhile isPySpace)
    else c :: collapseWsAux fuel rest

/-- `re.sub(r"\s+", " ", s)` on strings. -/
def collapseWs (s : String) : String := String.mk (collapseWsAux (s.length + 1) s.data)

/-- Python `str.split()`: words separated by whitespace runs, no empties. -/
def pySplitWsAux : ℕ → List Char → List String
  | 0, _ => []
  | _ + 1, [] => []
  | fuel + 1, cs =>
    let cs1 := cs.dropWhile isPySpace
    let w := cs1.takeWhile (fun c => !(isPySpace c))
    if w.isEmpty then []
    else String.mk w :: pySplitWsAux fuel (cs1.drop w.length)

/-- Python `str.split()` on strings. -/
def pySplitWs (s : String) : List String := pySplitWsAux (s.length + 1) s.data

/-- `re.split` against a one-character-class pattern with `+`: split at each
maximal run of separator characters, keeping empty pieces at the borders. -/
def splitRunsAux (sep : Char → Bool) : ℕ → List Char → List Char → List String
  | 0, _, cur => [String.mk cur.reverse]
  | _ + 1, [], cur => [String.mk cur.reverse]
  | fuel + 1, c :: rest, cur =>
    if sep c then
      String.mk cur.reverse :: splitRunsAux sep fuel (rest.dropWhile sep) []
    else splitRunsAux sep fuel rest (c :: cur)

/-- `re.split(r"[.!?]+", s)`. -/
def splitSentences (s : String) : List String :=
  splitRunsAux (fun c => c = '.' || c = '!' || c = '?') (s.length + 1) s.data []

/-- `extract_text`. -/
def extract_text (parser : SimpleHTMLParser) (_content : String) (opts : Options) : Val :=
  let text_parts :=
    (if opts.include_headings then
      headingLevels.flatMap (fun lvl => (parser.headingsAt lvl).filter (fun h => h ≠ ""))
    else []) ++ parser.paragraphs
  let full1 := pyStrip (collapseWs (strIntercalate " " text_parts))
  let full :=
    if full1.length > opts.max_length then (strTake full1 opts.max_length) ++ "..."
    else full1
  let words := pySplitWs full
  let sentences := splitSentences full
  .obj [
    ("success", .b true),
    ("text", .s full),
    ("stats", .obj [
      ("character_count", .i full.length),
      ("word_count", .i words.length),
      ("sentence_count", .i ((sentences.filter (fun t => pyStrip t ≠ "")).length)),
      ("average_word_length",
        if words.length = 0 then Val.i 0
        else Val.f (((words.map (fun w => (w.length : ℚ))).sum) / (words.length : ℚ)))]),
    ("headings_summary", .obj (headingLevels.filterMap (fun lvl =>
      let hs := parser.headingsAt lvl
      if hs ≠ [] then some (lvl, Val.arr ((hs.take 5).map Val.s)) else Option.none)))]

/-! ### `extract_metadata` -/

/-- `re.search(r"<title>(.*?)</title>", content, IGNORECASE | DOTALL)`:
the text between the first `<title>` and the first `</title>` after it. -/
def findTitle (content : String) : Option String := do
  let (_, suf) ← splitAtSubCI "<title>".data (content.length + 1) content.data
  let (body, _) ← splitAtSubCI "</title>".data (suf.length + 1) (suf.drop 7)
  pure (String.mk body)

/-- The mutable `metadata` dict of `extract_metadata` while the meta-tag
loop runs. -/
structure MetaAcc where
  description : String := ""
  keywords : String := ""
  author : String := ""
  viewport : String := ""
  charset : String := ""
  og_tags : List (String × String) := []
  twitter_tags : List (String × String) := []
  other : List (List (String × String)) := []

/-- One iteration of the meta-tag classification loop (lines 245-265). -/
def classifyMeta (acc : MetaAcc) (tag : List (String × String)) : MetaAcc :=
  let name := lowerStr (dget tag "name" "")
  let property_name := lowerStr (dget tag "property" "")
  let content_val := dget tag "content" ""
  if name = "description" then { acc with description := content_val }
  else if name = "keywords" then { acc with keywords := content_val }
  else if name = "author" then { acc with author := content_val }
  else if name = "viewport" then { acc with viewport := content_val }
  else if dget tag "charset" "" ≠ "" then { acc with charset := dget tag "charset" "" }
  else if strStartsWith property_name "og:" then
    { acc with og_tags := dictUpsert acc.og_tags property_name content_val }
  else if strStartsWith property_name "twitter:" then
    { acc with twitter_tags := dictUpsert acc.twitter_tags property_name content_val }
  else { acc with other := acc.other ++ [tag] }

/-- `extract_metadata`. -/
def extract_metadata (parser : SimpleHTMLParser) (content : String) (_opts : Options) : Val :=
  let title := match findTitle content with
    | some t => pyStrip t
    | Option.none => ""
  let m := parser.meta_tags.foldl classifyMeta {}
  .obj [
    ("success", .b true),
    ("metadata", .obj [
      ("title", .s title),
      ("description", .s m.description),
      ("keywords", .s m.keywords),
      ("author", .s m.author),
      ("viewport", .s m.viewport),
      ("charset", .s m.charset),
      ("og_tags", .obj (m.og_tags.map (fun p => (p.1, Val.s p.2)))),
      ("twitter_tags", .obj (m.twitter_tags.map (fun p => (p.1, Val.s p.2)))),
      ("other", .arr (m.other.map (fun d => Val.obj (d.map (fun p => (p.1, Val.s p.2))))))]),
    ("total_meta_tags", .i parser.meta_tags.length),
    ("has_og_tags", .b (0 < m.og_tags.length)),
    ("has_twitter_tags", .b (0 < m.twitter_tags.length))]

/-! ### Model of `json.loads` (strict JSON: values, objects, arrays,
strings with escapes, numbers, the three literals; trailing data or any
syntax error fails, matching a raised `JSONDecodeError`). -/

/-- JSON whitespace. -/
def isJsonWs (c : Char) : Bool := c = ' ' || c = '\t' || c = '\n' || c = '\r'

/-- The opening-brace character of a JSON object. -/
def obrace : Char := Char.ofNat 123

/-- The closing-brace character of a JSON object. -/
def cbrace : Char := Char.ofNat 125

/-- Hex digit value. -/
def hexVal (c : Char) : Option ℕ :=
  if c.isDigit then some (c.toNat - 48)
  else if 'a' ≤ c.toLower && c.toLower ≤ 'f' then some (c.toLower.toNat - 87)
  else Option.none

/-- Parse the body of a JSON string (after the opening quote). -/
def parseJsonStringAux : ℕ → List Char → List Char → Option (String × List Char)
  | 0, _, _ => Option.none
  | fuel + 1, cs, acc =>
    match cs with
    | [] => Option.none
    | '"' :: r => some (String.mk acc.reverse, r)
    | '\\' :: e :: r =>
      if e = '"' then parseJsonStringAux fuel r ('"' :: acc)
      else if e = '\\' then parseJsonStringAux fuel r ('\\' :: acc)
      else if e = '/' then parseJsonStringAux fuel r ('/' :: acc)
      else if e = 'b' then parseJsonStringAux fuel r ('\x08' :: acc)
      else if e = 'f' then parseJsonStringAux fuel r ('\x0c' :: acc)
      else if e = 'n' then parseJsonStringAux fuel r ('\n' :: acc)
      else if e = 'r' then parseJsonStringAux fuel r ('\r' :: acc)
      else if e = 't' then parseJsonStringAux fuel r ('\t' :: acc)
      else if e = 'u' then
        match r with
        | a :: b :: c :: d :: r2 =>
          match hexVal a, hexVal b, hexVal c, hexVal d with
          | some ha, some hb, some hc, some hd =>
            parseJsonStringAux fuel r2 (Char.ofNat (((ha * 16 + hb) * 16 + hc) * 16 + hd) :: acc)
          | _, _, _, _ => Option.none
        | _ => Option.none
      else Option.none
    | c :: r =>
      if c.toNat < 32 then Option.none
      else parseJsonStringAux fuel r (c :: acc)

/-- Digits-to-number. -/
def digitsToNat (ds : List Char) : ℕ := ds.foldl (fun n c => n * 10 + (c.toNat - 48)) 0

/-- Parse a JSON number; an integer without fraction or exponent stays a
Python int, everything else becomes a float. -/
def parseJsonNumber (cs : List Char) : Option (Val × List Char) :=
  let negRest : Bool × List Char :=
    match cs with
    | '-' :: r => (true, r)
    | _ => (false, cs)
  let neg := negRest.1
  let cs1 := negRest.2
  let intDs := cs1.takeWhile Char.isDigit
  if intDs.isEmpty then Option.none
  else if 1 < intDs.length && intDs.headD '0' = '0' then Option.none
  else
    let rest2 := cs1.drop intDs.length
    let fracParse : Option (List Char × List Char) :=
      match rest2 with
      | '.' :: r =>
        let fds := r.takeWhile Char.isDigit
        if fds.isEmpty then Option.none else some (fds, r.drop fds.length)
      | _ => some ([], rest2)
    match fracParse with
    | Option.none => Option.none
    | some (fracDs, rest3) =>
      let expParse : Option (Bool × ℤ × List Char) :=
        match rest3 with
        | e :: r =>
          if e = 'e' || e = 'E' then
            let signRest : Bool × List Char :=
              match r with
              | '+' :: r2 => (false, r2)
              | '-' :: r2 => (true, r2)
              | _ => (false, r)
            let eds := signRest.2.takeWhile Char.isDigit
            if eds.isEmpty then Option.none
            else
              let ev : ℤ := digitsToNat eds
              some (true, if signRest.1 then -ev else ev, signRest.2.drop eds.length)
          else some (false, 0, rest3)
        | [] => some (false, 0, rest3)
      match expParse with
      | Option.none => Option.none
      | some (hasExp, expv, rest4) =>
        let mag : ℚ := (digitsToNat intDs : ℚ) +
          (digitsToNat fracDs : ℚ) / ((10 : ℚ) ^ fracDs.length)
        let signed : ℚ := if neg then -mag else mag
        if fracDs.isEmpty && !hasExp then
          some (.i (if neg then -(digitsToNat intDs : ℤ) else (digitsToNat intDs : ℤ)), rest4)
        else some (.f (signed * (10 : ℚ) ^ expv), rest4)

/-- Assignment on a JSON-object association list (duplicate keys: last
value wins, first position kept, like building a Python dict). -/
def valUpsert (d : List (String × Val)) (k : String) (v : Val) : List (String × Val) :=
  if (d.find? (fun p => p.1 == k)).isSome then
    d.map (fun p => if p.1 == k then (k, v) else p)
  else d ++ [(k, v)]

mutual

/-- Parse one JSON value. -/
def parseJsonVal : ℕ → List Char → Option (Val × List Char)
  | 0, _ => Option.none
  | fuel + 1, cs0 =>
    let cs := cs0.dropWhile isJsonWs
    match cs with
    | [] => Option.none
    | c :: r =>
      if c = obrace then
        let r1 := r.dropWhile isJsonWs
        match r1 with
        | c2 :: r2 => if c2 = cbrace then some (.obj [], r2) else parseJsonMembers fuel r1 []
        | [] => Option.none
      else if c = '[' then
        let r1 := r.dropWhile isJsonWs
        match r1 with
        | ']' :: r2 => some (.arr [], r2)
        | _ => parseJsonItems fuel r1 []
      else if c = '"' then
        (parseJsonStringAux (r.length + 1) r []).map (fun p => (Val.s p.1, p.2))
      else if startsWithL "true".data cs then some (.b true, cs.drop 4)
      else if startsWithL "false".data cs then some (.b false, cs.drop 5)
      else if startsWithL "null".data cs then some (.none, cs.drop 4)
      else parseJsonNumber cs

/-- Parse the members of a JSON object (after at least one is known to
follow). -/
def parseJsonMembers : ℕ → List Char → List (String × Val) → Option (Val × List Char)
  | 0, _, _ => Option.none
  | fuel + 1, cs, acc =>
    let cs1 := cs.dropWhile isJsonWs
    match cs1 with
    | '"' :: r => do
      let (k, r1) ← parseJsonStringAux (r.length + 1) r []
      let r2 := r1.dropWhile isJsonWs
      match r2 with
      | ':' :: r3 => do
        let (v, r4) ← parseJsonVal fuel r3
        let r5 := r4.dropWhile isJsonWs
        match r5 with
        | ',' :: r6 => parseJsonMembers fuel r6 (valUpsert acc k v)
        | c :: r6 =>
          if c = cbrace then some (.obj (valUpsert acc k v), r6) else Option.none
        | [] => Option.none
      | _ => Option.none
    | _ => Option.none

/-- Parse the items of a JSON array (after at least one is known to
follow). -/
def parseJsonItems : ℕ → List Char → List Val → Option (Val × List Char)
  | 0, _, _ => Option.none
  | fuel + 1, cs, acc => do
    let (v, r) ← parseJsonVal fuel cs
    let r1 := r.dropWhile isJsonWs
    match r1 with
    | ',' :: r2 => parseJsonItems fuel r2 (acc ++ [v])
    | ']' :: r2 => some (.arr (acc ++ [v]), r2)
    | _ => Option.none

end

/-- `json.loads`: `Option.none` models a raised `JSONDecodeError`. -/
def json_loads (s : String) : Option Val :=
  match parseJsonVal ((s.length + 2) * 4) s.data with
  | some (v, rest) => if (rest.dropWhile isJsonWs).isEmpty then some v else Option.none
  | Option.none => Option.none

/-! ### `extract_structured` -/

/-- Whether the `type=["']application/ld+json["']` literal of the JSON-LD
pattern occurs at the head of `cs` (quotes may mismatch, exactly as in the
regex's two independent character classes; the literal is case-insensitive). -/
def typeLitAt (cs : List Char) : Bool :=
  if startsWithCI "type=".data cs then
    match cs.drop 5 with
    | q1 :: r =>
      if q1 = '"' || q1 = squote then
        if startsWithCI "application/ld+json".data r then
          match r.drop 19 with
          | q2 :: _ => q2 = '"' || q2 = squote
          | [] => false
        else false
      else false
    | [] => false
  else false

/-- Whether the type literal occurs anywhere in the attribute region of a
candidate `<script…>` tag (the region contains no `>`). -/
def containsTypeLit : List Char → Bool
  | [] => false
  | c :: rest => typeLitAt (c :: rest) || containsTypeLit rest

/-- Try to match the opening part
`<script[^>]*type=["']application/ld\+json["'][^>]*>` at the head of `cs`;
returns the input just after the `>` on success. -/
def tryOpenScriptLd (cs : List Char) : Option (List Char) :=
  if startsWithCI "<script".data cs then
    let t := cs.drop 7
    let upto := t.takeWhile (fun c => c ≠ '>')
    match t.drop upto.length with
    | [] => Option.none
    | _ :: afterGt => if containsTypeLit upto then some afterGt else Option.none
  else Option.none

/-- `re.findall` for the JSON-LD pattern: leftmost non-overlapping matches,
each capturing the (DOTALL, lazy) body up to the first `</script>`. -/
def jsonLdBlocksAux : ℕ → List Char → List String → List String
  | 0, _, acc => acc.reverse
  | _ + 1, [], acc => acc.reverse
  | fuel + 1, c :: rest, acc =>
    match tryOpenScriptLd (c :: rest) with
    | some afterGt =>
      (match splitAtSubCI "</script>".data (afterGt.length + 1) afterGt with
       | some (body, suf) => jsonLdBlocksAux fuel (suf.drop 9) (String.mk body :: acc)
       | Option.none => jsonLdBlocksAux fuel rest acc)
    | Option.none => jsonLdBlocksAux fuel rest acc

/-- All captured JSON-LD block bodies of the content. -/
def jsonLdBlocks (content : String) : List String :=
  jsonLdBlocksAux (content.length + 1) content.data []

/-- `extract_structured`. -/
def extract_structured (parser : SimpleHTMLParser) (content : String) (_opts : Options) : Val :=
  let structured_data := (jsonLdBlocks content).filterMap (fun m => json_loads (pyStrip m))
  let outline := parser.allHeadings
  .obj [
    ("success", .b true),
    ("json_ld", .arr (structured_data.take 5)),
    ("has_json_ld", .b (0 < structured_data.length)),
    ("microdata_indicators", .i (countSub content "itemscope")),
    ("document_outline", .arr ((outline.take 20).map
      (fun p => Val.obj [("level", .s p.1), ("text", .s p.2)]))),
    ("images_with_alt", .i ((parser.images.filter (fun im => im.alt ≠ "")).length)),
    ("total_images", .i parser.images.length)]

/-! ### The three regex contact extractors

The regexes of `extract_emails` / `extract_phone_numbers` / `extract_urls`
are modelled by explicit scanners with the same leftmost, non-overlapping
`re.findall` discipline and greedy-with-backtracking alternatives.
`list(set(...))` iterates a Python set whose order is unspecified (string
hashing is randomized); it is modelled as first-occurrence order.  No claim
depends on the exact match sets of these three extractors, only on the
shape of their results. -/

/-- Python `\w` (ASCII). -/
def isWordChar (c : Char) : Bool := c.isAlphanum || c = '_'

/-- Model of `list(set(xs))`: deduplicate keeping first occurrences. -/
def dedupFirst (xs : List String) : List String :=
  xs.foldl (fun acc x => if acc.contains x then acc else acc ++ [x]) []

/-- The local-part character class `[A-Za-z0-9._%+-]`. -/
def emailLocalChar (c : Char) : Bool :=
  c.isAlphanum || c = '.' || c = '_' || c = '%' || c = '+' || c = '-'

/-- The domain character class `[A-Za-z0-9.-]`. -/
def emailDomainChar (c : Char) : Bool := c.isAlphanum || c = '.' || c = '-'

/-- Try a dot position `p` for the `\.[A-Z|a-z]{2,}\b` tail: the maximal
letter run after the dot must have length at least two and end at a word
boundary; returns the end position of the whole domain match. -/
def emailDomainTry (cs : List Char) (p : ℕ) : Option ℕ :=
  if cs.get? p = some '.' then
    let L := (cs.drop (p + 1)).takeWhile Char.isAlpha
    if 2 ≤ L.length then
      match cs.get? (p + 1 + L.length) with
      | some c => if isWordChar c then Option.none else some (p + 1 + L.length)
      | Option.none => some (p + 1 + L.length)
    else Option.none
  else Option.none

/-- Backtracking over the greedy `[A-Za-z0-9.-]+\.`: try the latest dot
position first, never position 0 (the `+` needs one character). -/
def emailDomainGo (cs : List Char) : ℕ → Option ℕ
  | 0 => Option.none
  | p + 1 =>
    match emailDomainTry cs (p + 1) with
    | some e => some e
    | Option.none => emailDomainGo cs p

/-- Match the domain part at the head of `cs` (just after the `@`). -/
def emailDomainEnd (cs : List Char) : Option ℕ :=
  let run := cs.takeWhile emailDomainChar
  match run.length with
  | 0 => Option.none
  | n + 1 => emailDomainGo cs n

/-- The email scan: at each position with a word boundary, a nonempty
local-part run followed by `@` and a valid domain is a match. -/
def emailMatchesAux : ℕ → List Char → Bool → List String → List String
  | 0, _, _, acc => acc.reverse
  | _ + 1, [], _, acc => acc.reverse
  | fuel + 1, c :: rest, prevWord, acc =>
    let boundary := prevWord ≠ isWordChar c
    let skip := fun (_ : Unit) => emailMatchesAux fuel rest (isWordChar c) acc
    if boundary && emailLocalChar c then
      let loc := (c :: rest).takeWhile emailLocalChar
      match (c :: rest).drop loc.length with
      | '@' :: afterAt =>
        (match emailDomainEnd afterAt with
         | some e =>
           let m := String.mk (loc ++ '@' :: afterAt.take e)
           emailMatchesAux fuel (afterAt.drop e) true (m :: acc)
         | Option.none => skip ())
      | _ => skip ()
    else skip ()

/-- `re.findall(email_pattern, content)`. -/
def emailMatches (content : String) : List String :=
  emailMatchesAux (content.length + 1) content.data false []

/-- `extract_emails`. -/
def extract_emails (content : String) : Val :=
  let emails := dedupFirst (emailMatches content)
  .obj [
    ("success", .b true),
    ("emails", .arr ((emails.take 20).map Val.s)),
    ("total_found", .i emails.length)]

/-- The separator class `[-.\s]` of the phone patterns. -/
def isSep (c : Char) : Bool := c = '-' || c = '.' || isPySpace c

/-- Optional single character (`c?`), greedy: with it first, then without. -/
def optChar (c : Char) (cs : List Char) (k : List Char → Option (List Char)) :
    Option (List Char) :=
  match cs with
  | x :: r => if x = c then (k r) <|> (k cs) else k cs
  | [] => k cs

/-- Optional separator (`[-.\s]?`), greedy. -/
def optSep (cs : List Char) (k : List Char → Option (List Char)) : Option (List Char) :=
  match cs with
  | x :: r => if isSep x then (k r) <|> (k cs) else k cs
  | [] => k cs

/-- Greedy `\s*` (no backtracking needed: the following atoms never start
with whitespace). -/
def wsStar (cs : List Char) (k : List Char → Option (List Char)) : Option (List Char) :=
  k (cs.dropWhile isPySpace)

/-- Exactly `n` digits (`[0-9]{n}`). -/
def nDigits (n : ℕ) (cs : List Char) (k : List Char → Option (List Char)) :
    Option (List Char) :=
  if n ≤ (cs.takeWhile Char.isDigit).length then k (cs.drop n) else Option.none

/-- `[0-9]{lo,hi}`, greedy: longest count first. -/
def rangeDigits (lo : ℕ) : ℕ → List Char → (List Char → Option (List Char)) →
    Option (List Char)
  | 0, cs, k => if lo = 0 then k cs else Option.none
  | n + 1, cs, k =>
    (if lo ≤ n + 1 && n + 1 ≤ (cs.takeWhile Char.isDigit).length then k (cs.drop (n + 1))
     else Option.none)
    <|> rangeDigits lo n cs k

/-- US pattern `\+?1?\s*\(?[0-9]{3}\)?[-.\s]?[0-9]{3}[-.\s]?[0-9]{4}`. -/
def matchPhoneUS (cs : List Char) : Option (List Char) :=
  optChar '+' cs (fun r1 => optChar '1' r1 (fun r2 => wsStar r2 (fun r3 =>
    optChar '(' r3 (fun r4 => nDigits 3 r4 (fun r5 => optChar ')' r5 (fun r6 =>
      optSep r6 (fun r7 => nDigits 3 r7 (fun r8 =>
        optSep r8 (fun r9 => nDigits 4 r9 some)))))))))

/-- International pattern
`\+?[0-9]{1,3}[-.\s]?[0-9]{1,4}[-.\s]?[0-9]{1,4}[-.\s]?[0-9]{1,9}`. -/
def matchPhoneIntl (cs : List Char) : Option (List Char) :=
  optChar '+' cs (fun r1 => rangeDigits 1 3 r1 (fun r2 => optSep r2 (fun r3 =>
    rangeDigits 1 4 r3 (fun r4 => optSep r4 (fun r5 =>
      rangeDigits 1 4 r5 (fun r6 => optSep r6 (fun r7 =>
        rangeDigits 1 9 r7 some)))))))

/-- Simple pattern `\(?[0-9]{3}\)?[-.\s]?[0-9]{3}[-.\s]?[0-9]{4}`. -/
def matchPhoneSimple (cs : List Char) : Option (List Char) :=
  optChar '(' cs (fun r1 => nDigits 3 r1 (fun r2 => optChar ')' r2 (fun r3 =>
    optSep r3 (fun r4 => nDigits 3 r4 (fun r5 =>
      optSep r5 (fun r6 => nDigits 4 r6 some))))))

/-- Generic `re.findall` driver: leftmost, non-overlapping. -/
def findallAux (m : List Char → Option (List Char)) :
    ℕ → List Char → List String → List String
  | 0, _, acc => acc.reverse
  | _ + 1, [], acc => acc.reverse
  | fuel + 1, c :: rest, acc =>
    match m (c :: rest) with
    | some r =>
      if r.length < rest.length + 1 then
        findallAux m fuel r (String.mk ((c :: rest).take (rest.length + 1 - r.length)) :: acc)
      else findallAux m fuel rest acc
    | Option.none => findallAux m fuel rest acc

/-- `re.findall(pattern, content)` for a scanner `m`. -/
def findall (m : List Char → Option (List Char)) (content : String) : List String :=
  findallAux m (content.length + 1) content.data []

/-- `extract_phone_numbers`. -/
def extract_phone_numbers (content : String) : Val :=
  let phone_numbers :=
    findall matchPhoneUS content ++ findall matchPhoneIntl content ++
      findall matchPhoneSimple content
  let cleaned := dedupFirst (phone_numbers.map pyStrip)
  .obj [
    ("success", .b true),
    ("phone_numbers", .arr ((cleaned.take 20).map Val.s)),
    ("total_found", .i cleaned.length)]

/-- The host class `[-\w.]` of the URL pattern. -/
def urlHostChar (c : Char) : Bool := isWordChar c || c = '-' || c = '.'

/-- Match `https?://(?:[-\w.])+(?::\d+)?(?:/[^\s]*)?` at the head. -/
def matchUrl (cs : List Char) : Option (List Char) :=
  let afterScheme : Option (List Char) :=
    if startsWithL "https://".data cs then some (cs.drop 8)
    else if startsWithL "http://".data cs then some (cs.drop 7)
    else Option.none
  match afterScheme with
  | Option.none => Option.none
  | some r1 =>
    let host := r1.takeWhile urlHostChar
    if host.isEmpty then Option.none
    else
      let r2 := r1.drop host.length
      let r3 :=
        match r2 with
        | ':' :: r =>
          let ds := r.takeWhile Char.isDigit
          if ds.isEmpty then r2 else r.drop ds.length
        | _ => r2
      match r3 with
      | '/' :: r => some (r.dropWhile (fun c => !(isPySpace c)))
      | _ => some r3

/-- Count a domain occurrence (`domains[domain] = domains.get(domain, 0) + 1`). -/
def countUpsert (acc : List (String × ℕ)) (d : String) : List (String × ℕ) :=
  if (acc.find? (fun p => p.1 == d)).isSome then
    acc.map (fun p => if p.1 == d then (p.1, p.2 + 1) else p)
  else acc ++ [(d, 1)]

/-- Stable insertion for a count-descending sort (`sorted(..., reverse=True)`
is stable: equal counts keep insertion order). -/
def insertByCountDesc (x : String × ℕ) : List (String × ℕ) → List (String × ℕ)
  | [] => [x]
  | y :: ys => if x.2 ≤ y.2 then y :: insertByCountDesc x ys else x :: y :: ys

/-- `sorted(domains.items(), key=lambda x: x[1], reverse=True)`. -/
def sortByCountDesc (xs : List (String × ℕ)) : List (String × ℕ) :=
  xs.foldl (fun acc x => insertByCountDesc x acc) []

/-- `extract_urls`. -/
def extract_urls (content : String) : Except String Val := do
  let urls := dedupFirst (findall matchUrl content)
  let domains ← urls.foldlM
    (fun (acc : List (String × ℕ)) u => do
      let d ← netlocOfE u
      if d ≠ "" then pure (countUpsert acc d) else pure acc)
    []
  pure (.obj [
    ("success", .b true),
    ("urls", .arr ((urls.take 30).map Val.s)),
    ("total_found", .i urls.length),
    ("unique_domains", .arr (((domains.map Prod.fst).take 20).map Val.s)),
    ("domain_frequency", .obj (((sortByCountDesc domains).take 10).map
      (fun p => (p.1, Val.i p.2))))])

/-! ### The dispatcher `main` -/

/-- The `available_types` list of the unknown-type branch. -/
def validExtractTypes : List String :=
  ["all", "links", "text", "metadata", "structured", "emails", "phone_numbers", "urls"]

/-- The `"all"` branch result (lines 103-117): paragraphs capped to the
first 10, every other list uncapped, stats reporting the full counts. -/
def allResult (parser : SimpleHTMLParser) : Val :=
  .obj [
    ("success", .b true),
    ("links", .arr (parser.links.map LinkRec.toVal)),
    ("images", .arr (parser.images.map (fun im =>
      Val.obj [("src", .s im.src), ("alt", .s im.alt), ("title", .s im.title)]))),
    ("headings", .obj (headingLevels.map (fun lvl =>
      (lvl, Val.arr ((parser.headingsAt lvl).map Val.s))))),
    ("paragraphs", .arr ((parser.paragraphs.take 10).map Val.s)),
    ("meta_tags", .arr (parser.meta_tags.map (fun d =>
      Val.obj (d.map (fun p => (p.1, Val.s p.2)))))),
    ("stats", .obj [
      ("total_links", .i parser.links.length),
      ("total_images", .i parser.images.length),
      ("total_headings", .i ((headingLevels.map (fun l => (parser.headingsAt l).length)).sum)),
      ("total_paragraphs", .i parser.paragraphs.length)])]

/-- The body of the `try` block of `main`: scan, then dispatch on
`extract_type`; an `.error` is a Python exception reaching the
`except` clause. -/
def mainCore (content extract_type : String) (opts : Options) : Except String Val :=
  let parser := SimpleHTMLParser.feed content
  if extract_type = "links" then extract_links parser content opts
  else if extract_type = "text" then pure (extract_text parser content opts)
  else if extract_type = "metadata" then pure (extract_metadata parser content opts)
  else if extract_type = "structured" then pure (extract_structured parser content opts)
  else if extract_type = "emails" then pure (extract_emails content)
  else if extract_type = "phone_numbers" then pure (extract_phone_numbers content)
  else if extract_type = "urls" then extract_urls content
  else if extract_type = "all" then pure (allResult parser)
  else pure (.obj [
    ("error", .s ("Unknown extraction type: " ++ extract_type)),
    ("available_types", .arr (validExtractTypes.map Val.s))])

/-- `main(content, extract_type, options)`: the whole body runs inside
`try`, and the `except` clause returns
`{"error": str(e), "extract_type": extract_type}`. -/
def main (content extract_type : String) (opts : Options) : Val :=
  match mainCore content extract_type opts with
  | .ok v => v
  | .error e => .obj [("error", .s e), ("extract_type", .s extract_type)]

end WebScraper

namespace SimpleMath

/-! ### Embedding of `src/examples/python/simple_math.py`

The operand `a` is a Python value (number or list), `b` an optional
number; Python `bool` is a subclass of `int` and counts as an int.
`.error` models an exception reaching the `except` clause; the message
texts of exceptions raised by Python itself (`TypeError` etc.) are
abbreviated, no claim inspects them.  The cosmetic `operation` string
field renders numbers with Lean's `toString`, not CPython float repr;
no claim inspects it either. -/

/-- The int value of a Python value that `isinstance(·, int)` accepts. -/
def intOf : Val → Option ℤ
  | .i n => some n
  | .b bb => some (if bb then 1 else 0)
  | _ => Option.none

/-- The numeric (rational) value of a Python number. -/
def toQ : Val → Option ℚ
  | .i n => some n
  | .b bb => some (if bb then 1 else 0)
  | .f q => some q
  | _ => Option.none

/-- `isinstance(a, (int, float))`. -/
def isNum (v : Val) : Bool := (toQ v).isSome

/-- `isinstance(a, int)` (true for bools as well). -/
def pyIsInt (v : Val) : Bool := (intOf v).isSome

/-- `isinstance(a, list)`. -/
def pyIsList : Val → Bool
  | .arr _ => true
  | _ => false

/-- Python `int(a)`: ints unchanged, floats truncated toward zero,
anything else a `TypeError`. -/
def pyIntE : Val → Except String ℤ
  | .i n => pure n
  | .b bb => pure (if bb then 1 else 0)
  | .f q => pure (Int.tdiv q.num q.den)
  | _ => .error "int() argument must be a real number"

/-- Python `str(v)` (model; numbers via Lean `toString`). -/
def pyStr : ℕ → Val → String
  | 0, _ => ""
  | _ + 1, .none => "None"
  | _ + 1, .b bb => if bb then "True" else "False"
  | _ + 1, .i n => toString n
  | _ + 1, .f q => toString q
  | _ + 1, .s str => str
  | fuel + 1, .arr xs => "[" ++ strIntercalate ", " (xs.map (pyStr fuel)) ++ "]"
  | fuel + 1, .obj fs =>
    "(" ++ strIntercalate ", " (fs.map (fun p => p.1 ++ ": " ++ pyStr fuel p.2)) ++ ")"
  | fuel + 1, .approx tag args =>
    tag ++ "(" ++ strIntercalate ", " (args.map (pyStr fuel)) ++ ")"

/-- Python `str(v)` with enough fuel for the values at hand. -/
def fmt (v : Val) : String := pyStr 16 v

/-- Python `a + b`: int-preserving on ints, float on mixed numerics, list
concatenation on lists. -/
def pyAdd (a bv : Val) : Except String Val :=
  match intOf a, intOf bv with
  | some x, some y => pure (.i (x + y))
  | _, _ =>
    match toQ a, toQ bv with
    | some x, some y => pure (.f (x + y))
    | _, _ =>
      match a, bv with
      | .arr xs, .arr ys => pure (.arr (xs ++ ys))
      | _, _ => .error "unsupported operand type(s) for +"

/-- Python `a - b` for numbers. -/
def pySub (a bv : Val) : Except String Val :=
  match intOf a, intOf bv with
  | some x, some y => pure (.i (x - y))
  | _, _ =>
    match toQ a, toQ bv with
    | some x, some y => pure (.f (x - y))
    | _, _ => .error "unsupported operand type(s) for -"

/-- Python `a * b` for numbers. -/
def pyMul (a bv : Val) : Except String Val :=
  match intOf a, intOf bv with
  | some x, some y => pure (.i (x * y))
  | _, _ =>
    match toQ a, toQ bv with
    | some x, some y => pure (.f (x * y))
    | _, _ => .error "unsupported operand type(s) for *"

/-- Python `a / b` (true division; the zero check happens before the call
in `main`, but `0` in a float division after a list operand still fails
with a `TypeError` like CPython). -/
def pyDiv (a bv : Val) : Except String Val :=
  match toQ a, toQ bv with
  | some x, some y =>
    if y = 0 then .error "division by zero" else pure (.f (x / y))
  | _, _ => .error "unsupported operand type(s) for /"

/-- Python `a ** b`: int result for int base and non-negative int
exponent; rational for an integer-valued exponent; symbolic otherwise. -/
def pyPow (a bv : Val) : Except String Val :=
  match intOf a, intOf bv with
  | some x, some y =>
    if 0 ≤ y then pure (.i (x ^ y.toNat))
    else if x = 0 then .error "0.0 cannot be raised to a negative power"
    else pure (.f ((x : ℚ) ^ (y : ℤ)))
  | _, _ =>
    match toQ a, toQ bv with
    | some x, some y =>
      if y.den = 1 then
        if x = 0 && y.num < 0 then .error "0.0 cannot be raised to a negative power"
        else pure (.f (x ^ y.num))
      else pure (.approx "pow" [a, bv])
    | _, _ => .error "unsupported operand type(s) for **"

/-- Python `a < 0` as used by the `sqrt` branch: a `TypeError` for
non-numbers. -/
def pyLt0 : Val → Except String Bool
  | .i n => pure (n < 0)
  | .b _ => pure false
  | .f q => pure (q < 0)
  | _ => .error "'<' not supported between instances of 'list' and 'int'"

/-- Python `sum(xs)` (starts from the int 0). -/
def pySum (xs : List Val) : Except String Val :=
  xs.foldlM (fun acc x => pyAdd acc x) (Val.i 0)

/-- All elements as rationals, failing on a non-numeric element. -/
def toQList (xs : List Val) : Except String (List ℚ) :=
  xs.mapM (fun x => match toQ x with
    | some q => pure q
    | Option.none => Except.error "unsupported operand type(s)")

/-- Stable insertion (ascending by numeric value). -/
def insertByQ (x : Val × ℚ) : List (Val × ℚ) → List (Val × ℚ)
  | [] => [x]
  | y :: ys => if y.2 ≤ x.2 then y :: insertByQ x ys else x :: y :: ys

/-- Python `sorted(a)` for a list of numbers (stable, ascending). -/
def pySorted (xs : List Val) : Except String (List Val) := do
  let qs ← toQList xs
  pure ((List.foldl (fun acc x => insertByQ x acc) [] (xs.zip qs)).map Prod.fst)

/-- The `frequency` dict of the `mode` branch: keys compared by Python
`==` (numeric equality across int/float), first key representative kept. -/
def freqDict (xs : List Val) : Except String (List (Val × ℚ × ℕ)) :=
  xs.foldlM (fun acc x =>
    match toQ x with
    | Option.none => .error "unhashable type"
    | some q =>
      if (acc.find? (fun p => p.2.1 == q)).isSome then
        pure (acc.map (fun p => if p.2.1 == q then (p.1, p.2.1, p.2.2 + 1) else p))
      else pure (acc ++ [(x, q, 1)])) []

/-- The first `n` Fibonacci numbers as built by the `fibonacci` branch. -/
def fibList (n : ℕ) : List ℤ :=
  if n = 0 then []
  else if n = 1 then [0]
  else (List.range (n - 2)).foldl
    (fun acc _ => acc ++ [acc.getLast! + acc.dropLast.getLast!]) [0, 1]

/-- `int(math.sqrt(n))` for the trial-division bound (binary64 `math.sqrt`
is exact on the integer-square-root scale of any realistic operand;
modelled as `Nat.sqrt`). -/
def isqrt (n : ℕ) : ℕ := Nat.sqrt n

/-- The `available` list of the unknown-operation branch. -/
def availableOps : List String :=
  ["add", "subtract", "multiply", "divide", "power", "sqrt",
   "factorial", "gcd", "lcm", "mean", "median", "mode",
   "variance", "stddev", "prime_check", "fibonacci"]

/-- The body of the `try` block of `main`. -/
def mainCore (operation : String) (a : Val) (b : Option Val) : Except String Val :=
  if operation = "add" then
    match b with
    | Option.none => pure (.obj [("error", .s "Addition requires two operands")])
    | some bv => do
      let r ← pyAdd a bv
      pure (.obj [("result", r), ("operation", .s (fmt a ++ " + " ++ fmt bv))])
  else if operation = "subtract" then
    match b with
    | Option.none => pure (.obj [("error", .s "Subtraction requires two operands")])
    | some bv => do
      let r ← pySub a bv
      pure (.obj [("result", r), ("operation", .s (fmt a ++ " - " ++ fmt bv))])
  else if operation = "multiply" then
    match b with
    | Option.none => pure (.obj [("error", .s "Multiplication requires two operands")])
    | some bv => do
      let r ← pyMul a bv
      pure (.obj [("result", r), ("operation", .s (fmt a ++ " × " ++ fmt bv))])
  else if operation = "divide" then
    match b with
    | Option.none => pure (.obj [("error", .s "Division requires two operands")])
    | some bv =>
      if toQ bv = some 0 then
        pure (.obj [("error", .s "Division by zero is undefined")])
      else do
        let r ← pyDiv a bv
        pure (.obj [("result", r), ("operation", .s (fmt a ++ " ÷ " ++ fmt bv))])
  else if operation = "power" then
    match b with
    | Option.none => pure (.obj [("error", .s "Power operation requires two operands")])
    | some bv => do
      let r ← pyPow a bv
      pure (.obj [("result", r), ("operation", .s (fmt a ++ "^" ++ fmt bv))])
  else if operation = "sqrt" then do
    let neg ← pyLt0 a
    if neg then pure (.obj [("error", .s "Cannot calculate square root of negative number")])
    else pure (.obj [("result", .approx "sqrt" [a]), ("operation", .s ("√" ++ fmt a))])
  else if operation = "factorial" then
    if !(pyIsInt a) then
      pure (.obj [("error", .s "Factorial requires a non-negative integer")])
    else
      match intOf a with
      | some n =>
        if n < 0 then pure (.obj [("error", .s "Factorial requires a non-negative integer")])
        else pure (.obj [("result", .i (Nat.factorial n.toNat)),
          ("operation", .s (toString n ++ "!"))])
      | Option.none => pure (.obj [("error", .s "Factorial requires a non-negative integer")])
  else if operation = "gcd" then
    match b with
    | Option.none => pure (.obj [("error", .s "GCD requires two operands")])
    | some bv => do
      let na ← pyIntE a
      let nb ← pyIntE bv
      pure (.obj [("result", .i (Int.gcd na nb)),
        ("operation", .s ("gcd(" ++ toString na ++ ", " ++ toString nb ++ ")"))])
  else if operation = "lcm" then
    match b with
    | Option.none => pure (.obj [("error", .s "LCM requires two operands")])
    | some bv => do
      let na ← pyIntE a
      let nb ← pyIntE bv
      let gcd_val : ℕ := Int.gcd na nb
      let lcm_val : ℤ := if gcd_val ≠ 0 then ((na * nb).natAbs / gcd_val : ℕ) else 0
      pure (.obj [("result", .i lcm_val),
        ("operation", .s ("lcm(" ++ toString na ++ ", " ++ toString nb ++ ")"))])
  else if operation = "mean" then
    if !(pyIsList a) then pure (.obj [("error", .s "Mean requires a list of numbers")])
    else
      match a with
      | .arr [] => pure (.obj [("error", .s "Cannot calculate mean of empty list")])
      | .arr xs => do
        let sv ← pySum xs
        let q := (toQ sv).getD 0
        pure (.obj [("result", .f (q / (xs.length : ℚ))), ("count", .i xs.length),
          ("sum", sv)])
      | _ => pure (.obj [("error", .s "Mean requires a list of numbers")])
  else if operation = "median" then
    if !(pyIsList a) then pure (.obj [("error", .s "Median requires a list of numbers")])
    else
      match a with
      | .arr [] => pure (.obj [("error", .s "Cannot calculate median of empty list")])
      | .arr xs => do
        let sorted_list ← pySorted xs
        let n := xs.length
        let median_val : Except String Val :=
          if n % 2 = 0 then
            match toQ (sorted_list.getD (n / 2 - 1) .none), toQ (sorted_list.getD (n / 2) .none) with
            | some x, some y => pure (.f ((x + y) / 2))
            | _, _ => .error "unsupported operand type(s)"
          else pure (sorted_list.getD (n / 2) .none)
        let mv ← median_val
        pure (.obj [("result", mv), ("count", .i n), ("sorted", .arr sorted_list)])
      | _ => pure (.obj [("error", .s "Median requires a list of numbers")])
  else if operation = "mode" then
    if !(pyIsList a) then pure (.obj [("error", .s "Mode requires a list of numbers")])
    else
      match a with
      | .arr [] => pure (.obj [("error", .s "Cannot calculate mode of empty list")])
      | .arr xs => do
        let freq ← freqDict xs
        let max_freq := (freq.map (fun p => p.2.2)).foldl max 0
        let modes := (freq.filter (fun p => p.2.2 = max_freq)).map Prod.fst
        let rv : Val := match modes with
          | [m] => m
          | _ => .arr modes
        pure (.obj [("result", rv),
          ("frequency", .obj (freq.map (fun p => (fmt p.1, Val.i p.2.2))))])
      | _ => pure (.obj [("error", .s "Mode requires a list of numbers")])
  else if operation = "variance" then
    if !(pyIsList a) then pure (.obj [("error", .s "Variance requires a list of numbers")])
    else
      match a with
      | .arr xs =>
        if xs.length < 2 then
          pure (.obj [("error", .s "Variance requires at least 2 numbers")])
        else do
          let qs ← toQList xs
          let mean_val := qs.sum / (qs.length : ℚ)
          let variance := ((qs.map (fun x => (x - mean_val) ^ 2)).sum) / ((qs.length : ℚ) - 1)
          pure (.obj [("result", .f variance), ("mean", .f mean_val), ("count", .i xs.length)])
      | _ => pure (.obj [("error", .s "Variance requires a list of numbers")])
  else if operation = "stddev" then
    if !(pyIsList a) then
      pure (.obj [("error", .s "Standard deviation requires a list of numbers")])
    else
      match a with
      | .arr xs =>
        if xs.length < 2 then
          pure (.obj [("error", .s "Standard deviation requires at least 2 numbers")])
        else do
          let qs ← toQList xs
          let mean_val := qs.sum / (qs.length : ℚ)
          let variance := ((qs.map (fun x => (x - mean_val) ^ 2)).sum) / ((qs.length : ℚ) - 1)
          pure (.obj [("result", .approx "sqrt" [.f variance]), ("variance", .f variance),
            ("mean", .f mean_val)])
      | _ => pure (.obj [("error", .s "Standard deviation requires a list of numbers")])
  else if operation = "prime_check" then do
    let n ← pyIntE a
    if n < 2 then
      pure (.obj [("result", .b false), ("number", .i n), ("reason", .s "Less than 2")])
    else
      match (List.range' 2 (isqrt n.toNat - 1)).find? (fun i => n.toNat % i = 0) with
      | some i => pure (.obj [("result", .b false), ("number", .i n), ("factor", .i i)])
      | Option.none => pure (.obj [("result", .b true), ("number", .i n)])
  else if operation = "fibonacci" then do
    let n ← pyIntE a
    if n < 0 then pure (.obj [("error", .s "Fibonacci requires a non-negative integer")])
    else if n = 0 then pure (.obj [("result", .arr []), ("count", .i 0)])
    else if n = 1 then pure (.obj [("result", .arr [.i 0]), ("count", .i 1)])
    else
      let fib := fibList n.toNat
      pure (.obj [("result", .arr (fib.map Val.i)), ("count", .i n),
        ("last", .i fib.getLast!)])
  else
    pure (.obj [("error", .s ("Unknown operation: " ++ operation)),
      ("available", .arr (availableOps.map Val.s))])

/-- `main(operation, a, b)` of `simple_math.py`: the `try` body plus the
`except` clause returning `{"error": str(e), "operation": operation}`. -/
def main (operation : String) (a : Val) (b : Option Val) : Val :=
  match mainCore operation a b with
  | .ok v => v
  | .error e => .obj [("error", .s e), ("operation", .s operation)]

end SimpleMath

namespace TextAnalyzer

open WebScraper (pySplitWs splitSentences isWordChar emailMatches countUpsert sortByCountDesc)

/-! ### Embedding of `src/examples/python/text_analyzer.py`

The module has no `try`/`except`: every function is total.  It reuses the
same primitive models as the scraper: `str.split()`, `re.split("[.!?]+")`,
word tokens for `\b\w+\b` (which are exactly the maximal `\w` runs), and
the identical email regex.  Floats are idealized as exact rationals;
`round(x, 2)` is modelled as rational rounding half-to-even at two
decimals. -/

/-- Python `text.split(sep)` for a fixed non-empty separator. -/
def pySplitSubAux (pat : List Char) : ℕ → List Char → List String
  | 0, cs => [String.mk cs]
  | fuel + 1, cs =>
    match splitAtSub pat (cs.length + 1) cs with
    | some (pre, suf) => String.mk pre :: pySplitSubAux pat fuel (suf.drop pat.length)
    | Option.none => [String.mk cs]

/-- Python `text.split(sep)` on strings. -/
def pySplitSub (s sep : String) : List String := pySplitSubAux sep.data (s.length + 1) s.data

/-- `basic_analysis`. -/
def basic_analysis (text : String) : Val :=
  let words := pySplitWs text
  let sentences := (splitSentences text).filter (fun t => pyStrip t ≠ "")
  let paragraphs := pySplitSub text "\n\n"
  .obj [
    ("character_count", .i text.length),
    ("character_count_no_spaces", .i ((text.data.filter (fun c => !(c = ' ' || c = '\n'))).length)),
    ("word_count", .i words.length),
    ("sentence_count", .i sentences.length),
    ("paragraph_count", .i paragraphs.length),
    ("average_word_length",
      if words.length = 0 then Val.i 0
      else Val.f (((words.map (fun w => (w.length : ℚ))).sum) / (words.length : ℚ))),
    ("average_sentence_length",
      if sentences.length = 0 then Val.i 0
      else Val.f ((words.length : ℚ) / (sentences.length : ℚ)))]

/-- The simplified syllable counter: vowel-run starts in the lowercased
word, at least one. -/
def count_syllables (w : String) : ℕ :=
  let folded := (w.data.map Char.toLower).foldl
    (fun (st : ℕ × Bool) c =>
      let isV := c = 'a' || c = 'e' || c = 'i' || c = 'o' || c = 'u'
      ((if isV && !st.2 then st.1 + 1 else st.1), isV))
    (0, false)
  max 1 folded.1

/-- Round half-to-even to an integer (Python `round` on an exact value). -/
def roundHalfEven (y : ℚ) : ℤ :=
  let fl := ⌊y⌋
  let fr := y - fl
  if fr < 1 / 2 then fl
  else if 1 / 2 < fr then fl + 1
  else if fl % 2 = 0 then fl else fl + 1

/-- Python `round(x, 2)` on an exact rational. -/
def round2 (x : ℚ) : ℚ := (roundHalfEven (x * 100) : ℚ) / 100

/-- The Flesch difficulty bucket chain. -/
def difficultyOf (flesch : ℚ) : String :=
  if 90 ≤ flesch then "Very Easy"
  else if 80 ≤ flesch then "Easy"
  else if 70 ≤ flesch then "Fairly Easy"
  else if 60 ≤ flesch then "Standard"
  else if 50 ≤ flesch then "Fairly Difficult"
  else if 30 ≤ flesch then "Difficult"
  else "Very Difficult"

/-- `readability_analysis`. -/
def readability_analysis (text : String) : Val :=
  let words := pySplitWs text
  let sentences := (splitSentences text).filter (fun t => pyStrip t ≠ "")
  let total_syllables := (words.map count_syllables).sum
  let computed : Option ℚ :=
    if 0 < sentences.length && 0 < words.length then
      let avg_sentence_length : ℚ := (words.length : ℚ) / (sentences.length : ℚ)
      let avg_syllables_per_word : ℚ := (total_syllables : ℚ) / (words.length : ℚ)
      some ((206.835 : ℚ) - (1.015 : ℚ) * avg_sentence_length -
        (84.6 : ℚ) * avg_syllables_per_word)
    else Option.none
  .obj [
    ("flesch_reading_ease",
      match computed with
      | some fs => Val.f (round2 fs)
      | Option.none => Val.i 0),
    ("difficulty_level", .s (match computed with
      | some fs => difficultyOf fs
      | Option.none => "Cannot calculate")),
    ("total_syllables", .i total_syllables),
    ("average_syllables_per_word",
      if words.length = 0 then Val.i 0
      else Val.f (round2 ((total_syllables : ℚ) / (words.length : ℚ))))]

/-- `re.findall(r"\b\w+\b", s)`: exactly the maximal `\w` runs. -/
def wordTokensAux : ℕ → List Char → List String
  | 0, _ => []
  | _ + 1, [] => []
  | fuel + 1, cs =>
    let cs1 := cs.dropWhile (fun c => !(isWordChar c))
    let w := cs1.takeWhile isWordChar
    if w.isEmpty then []
    else String.mk w :: wordTokensAux fuel (cs1.drop w.length)

/-- Word tokens of a string. -/
def wordTokens (s : String) : List String := wordTokensAux (s.length + 1) s.data

/-- `collections.Counter` as an insertion-ordered association list. -/
def counterOf (xs : List String) : List (String × ℕ) := xs.foldl countUpsert []

/-- `Counter.most_common(k)`: count-descending, ties in first-encounter
order. -/
def mostCommon (k : ℕ) (c : List (String × ℕ)) : List (String × ℕ) :=
  (sortByCountDesc c).take k

/-- `frequency_analysis`. -/
def frequency_analysis (text : String) : Val :=
  let words := wordTokens (lowerStr text)
  let word_freq := counterOf words
  let chars := (text.data.filter (fun c => !(c = ' ' || c = '\n' || c = '\t'))).map
    (fun c => (Char.toLower c).toString)
  let char_freq := counterOf chars
  let bigrams := (words.zip words.tail).map (fun p => p.1 ++ " " ++ p.2)
  let bigram_freq := counterOf bigrams
  .obj [
    ("unique_words", .i word_freq.length),
    ("top_10_words", .obj ((mostCommon 10 word_freq).map (fun p => (p.1, Val.i p.2)))),
    ("top_10_characters", .obj ((mostCommon 10 char_freq).map (fun p => (p.1, Val.i p.2)))),
    ("top_5_bigrams", .obj ((mostCommon 5 bigram_freq).map (fun p => (p.1, Val.i p.2)))),
    ("lexical_diversity",
      if words.length = 0 then Val.i 0
      else Val.f ((word_freq.length : ℚ) / (words.length : ℚ)))]

/-- `re.search(r"https?://\S+", text)` as a Boolean. -/
def hasUrlHint : List Char → Bool
  | [] => false
  | c :: rest =>
    (startsWithL "https://".data (c :: rest) &&
      (match (c :: rest).drop 8 with
       | x :: _ => !(isPySpace x)
       | [] => false)) ||
    (startsWithL "http://".data (c :: rest) &&
      (match (c :: rest).drop 7 with
       | x :: _ => !(isPySpace x)
       | [] => false)) ||
    hasUrlHint rest

/-- `full_analysis`. -/
def full_analysis (text : String) : Val :=
  .obj [
    ("basic", basic_analysis text),
    ("readability", readability_analysis text),
    ("frequency", frequency_analysis text),
    ("metadata", .obj [
      ("has_numbers", .b (text.data.any Char.isDigit)),
      ("has_urls", .b (hasUrlHint text.data)),
      ("has_emails", .b (!(emailMatches text).isEmpty)),
      ("language_hint", .s
        (if ["the", "and", "is", "in", "to"].any
            (fun w => containsSub w.data (lowerStr text).data) then "english"
         else "unknown"))])]

/-- The `analyses` dict keys, in insertion order (the `available` hint). -/
def analysisTypes : List String := ["basic", "readability", "frequency", "full"]

/-- `main(text, analysis_type)` of `text_analyzer.py`. -/
def main (text : String) (analysis_type : String) : Val :=
  if text = "" then .obj [("error", .s "No text provided")]
  else if analysis_type = "basic" then basic_analysis text
  else if analysis_type = "readability" then readability_analysis text
  else if analysis_type = "frequency" then frequency_analysis text
  else if analysis_type = "full" then full_analysis text
  else .obj [
    ("error", .s ("Unknown analysis type: " ++ analysis_type)),
    ("available", .arr (analysisTypes.map Val.s))]

end TextAnalyzer

/-! ### Concrete inputs used by the claim theorems and witnesses -/

/-- A link whose href makes `urljoin` raise `ValueError("Invalid IPv6 URL")`
inside `extract_links` (an unmatched bracket in the netloc). -/
def ipv6Content : String := "<a href=\"http://[\">x</a>"

/-- Two JSON-LD script blocks: the first valid JSON, the second malformed. -/
def twoBlocksContent : String :=
  "<script type=\"application/ld+json\">\x7b\"a\": 1\x7d</script><script type=\"application/ld+json\">\x7bbad</script>"

/-- An h2 heading before an h1 heading. -/
def outlineContent : String := "<h2>A</h2><h1>B</h1>"

/-- A heading with a nested element and trailing text. -/
def nestedHeadingContent : String := "<h1>A<b>B</b>C</h1>"

/-- A paragraph with a nested element and trailing text. -/
def nestedParagraphContent : String := "<p>A<b>B</b>C</p>"

/-- A single anchor link, for the link-extraction witness. -/
def anchorContent : String := "<a href=\"#a\">x</a>"

/-! ## Theorems -/

/-- `pure` on `Except` is `ok`. -/
theorem exceptPure_eq_ok {ε α : Type} (x : α) : (pure x : Except ε α) = Except.ok x := rfl

/-- Binding a successful `Except` computation. -/
theorem exceptBind_ok_eq {ε α β : Type} (x : α) (f : α → Except ε β) :
    (Except.ok x >>= f) = f x := rfl

/-- Destructing a successful `Except` bind. -/
theorem exceptBind_ok {ε α β : Type} {x : Except ε α} {f : α → Except ε β} {b : β}
    (h : x >>= f = Except.ok b) : ∃ a, x = Except.ok a ∧ f a = Except.ok b := by
  cases x with
  | ok a => exact ⟨a, rfl, h⟩
  | error e => simp [Bind.bind, Except.bind] at h

/-- Structure of every successful `extract_links` result: the three
categories produced by `categorize`, the lists capped to 20/20/10, the
stats carrying the uncapped lengths. -/
theorem extractLinks_ok_structure (p : WebScraper.SimpleHTMLParser) (content : String)
    (opts : WebScraper.Options) (v : Val)
    (h : WebScraper.extract_links p content opts = Except.ok v) :
    ∃ links internal external anchors,
      WebScraper.categorize links opts.base_url = Except.ok (internal, external, anchors) ∧
      v = Val.obj [
        ("success", .b true),
        ("total_links", .i links.length),
        ("internal_links", .arr ((internal.take 20).map WebScraper.LinkRec.toVal)),
        ("external_links", .arr ((external.take 20).map WebScraper.LinkRec.toVal)),
        ("anchor_links", .arr ((anchors.take 10).map WebScraper.LinkRec.toVal)),
        ("stats", .obj [
          ("internal_count", .i internal.length),
          ("external_count", .i external.length),
          ("anchor_count", .i anchors.length)])] := by
  simp only [WebScraper.extract_links] at h
  obtain ⟨links1, h1, h⟩ := exceptBind_ok h
  obtain ⟨links, h2, h⟩ := exceptBind_ok h
  obtain ⟨cats, h3, h⟩ := exceptBind_ok h
  obtain ⟨internal, external, anchors⟩ := cats
  simp only [pure, Except.pure, Except.ok.injEq] at h
  exact ⟨links, internal, external, anchors, h3, h.symm⟩

/-- Every successful `extract_urls` result is a dict. -/
theorem extractUrls_ok_isObj (content : String) (v : Val)
    (h : WebScraper.extract_urls content = Except.ok v) : v.isObj = true := by
  simp only [WebScraper.extract_urls] at h
  obtain ⟨domains, h1, h⟩ := exceptBind_ok h
  simp only [pure, Except.pure, Except.ok.injEq] at h
  rw [← h]
  rfl

/-- C4: link extraction with `base_url="http://x.com"` on content holding a
link with relative href `/foo` resolves `absolute_href` to
`http://x.com/foo` and puts the link in the internal category (not
external, not anchor). -/
theorem claim_C4_relative_href_internal :
    WebScraper.urljoinE "http://x.com" "/foo" = Except.ok "http://x.com/foo" ∧
    (WebScraper.main "<a href=\"/foo\">x</a>" "links" { base_url := "http://x.com" }).get
        "internal_links" =
      some (.arr [.obj [("href", .s "/foo"), ("title", .s ""), ("rel", .s ""),
        ("absolute_href", .s "http://x.com/foo")]]) ∧
    (WebScraper.main "<a href=\"/foo\">x</a>" "links" { base_url := "http://x.com" }).get
        "external_links" = some (.arr []) ∧
    (WebScraper.main "<a href=\"/foo\">x</a>" "links" { base_url := "http://x.com" }).get
        "anchor_links" = some (.arr []) :=
  ⟨by rfl, by rfl, by rfl, by rfl⟩

/-- C2 counterexample: on `<h2>A</h2><h1>B</h1>` the document outline lists
the h1 heading first although the h2 heading precedes it in the input, so
the outline is not in document order across levels. -/
theorem claim_C2_counterexample :
    (WebScraper.main outlineContent "structured" {}).get "document_outline" =
      some (.arr [
        .obj [("level", .s "h1"), ("text", .s "B")],
        .obj [("level", .s "h2"), ("text", .s "A")]]) ∧
    (WebScraper.main outlineContent "structured" {}).get "document_outline" ≠
      some (.arr [
        .obj [("level", .s "h2"), ("text", .s "A")],
        .obj [("level", .s "h1"), ("text", .s "B")]]) := by
  refine ⟨rfl, ?_⟩
  intro h
  rw [show (WebScraper.main outlineContent "structured" {}).get "document_outline" =
    some (.arr [
      .obj [("level", .s "h1"), ("text", .s "B")],
      .obj [("level", .s "h2"), ("text", .s "A")]]) from rfl] at h
  simp at h

/-- C2 amended: the document outline lists one entry per captured nonempty
heading, grouped by level h1..h6 and in document order within each level,
each entry tagged with its level and text, capped to the first 20. -/
theorem claim_C2_amended_outline_by_level :
    ∀ (content : String) (opts : WebScraper.Options),
      (WebScraper.main content "structured" opts).get "document_outline" =
        some (.arr ((((WebScraper.SimpleHTMLParser.feed content).allHeadings).take 20).map
          (fun p => Val.obj [("level", .s p.1), ("text", .s p.2)]))) ∧
      (((WebScraper.SimpleHTMLParser.feed content).allHeadings).take 20).length ≤ 20 := by
  intro content opts
  refine ⟨rfl, ?_⟩
  rw [List.length_take]
  exact min_le_left _ _

/-- C6: structured extraction parses each case-insensitive JSON-LD script
block, silently drops the blocks that fail to parse, and reports
`has_json_ld` as "at least one block parsed"; on content with one valid
and one malformed block it returns exactly one parsed entry and
`has_json_ld=true`. -/
theorem claim_C6_json_ld_skip_malformed :
    (∀ (content : String) (opts : WebScraper.Options),
      (WebScraper.main content "structured" opts).get "json_ld" =
        some (.arr (((WebScraper.jsonLdBlocks content).filterMap
          (fun m => WebScraper.json_loads (pyStrip m))).take 5)) ∧
      (WebScraper.main content "structured" opts).get "has_json_ld" =
        some (.b (0 < ((WebScraper.jsonLdBlocks content).filterMap
          (fun m => WebScraper.json_loads (pyStrip m))).length))) ∧
    (WebScraper.jsonLdBlocks twoBlocksContent).length = 2 ∧
    WebScraper.json_loads (pyStrip "\x7bbad") = Option.none ∧
    (WebScraper.main twoBlocksContent "structured" {}).get "json_ld" =
      some (.arr [.obj [("a", .i 1)]]) ∧
    (WebScraper.main twoBlocksContent "structured" {}).get "has_json_ld" =
      some (.b true) :=
  ⟨fun _ _ => ⟨rfl, rfl⟩, by rfl, by rfl, by rfl, by rfl⟩

/-- C8: the `"all"` mode caps `paragraphs` to the first 10 while `links`,
`images`, `headings` and `meta_tags` are uncapped, and the stats fields
carry the true uncapped counts. -/
theorem claim_C8_all_mode_caps :
    ∀ (content : String) (opts : WebScraper.Options),
      WebScraper.main content "all" opts = .obj [
        ("success", .b true),
        ("links", .arr ((WebScraper.SimpleHTMLParser.feed content).links.map
          WebScraper.LinkRec.toVal)),
        ("images", .arr ((WebScraper.SimpleHTMLParser.feed content).images.map (fun im =>
          Val.obj [("src", .s im.src), ("alt", .s im.alt), ("title", .s im.title)]))),
        ("headings", .obj (WebScraper.headingLevels.map (fun lvl =>
          (lvl, Val.arr (((WebScraper.SimpleHTMLParser.feed content).headingsAt lvl).map
            Val.s))))),
        ("paragraphs", .arr (((WebScraper.SimpleHTMLParser.feed content).paragraphs.take 10).map
          Val.s)),
        ("meta_tags", .arr ((WebScraper.SimpleHTMLParser.feed content).meta_tags.map (fun d =>
          Val.obj (d.map (fun p => (p.1, Val.s p.2)))))),
        ("stats", .obj [
          ("total_links", .i (WebScraper.SimpleHTMLParser.feed content).links.length),
          ("total_images", .i (WebScraper.SimpleHTMLParser.feed content).images.length),
          ("total_headings", .i ((WebScraper.headingLevels.map (fun l =>
            ((WebScraper.SimpleHTMLParser.feed content).headingsAt l).length)).sum)),
          ("total_paragraphs", .i (WebScraper.SimpleHTMLParser.feed content).paragraphs.length)])] ∧
      (((WebScraper.SimpleHTMLParser.feed content).paragraphs.take 10).length ≤ 10) := by
  intro content opts
  refine ⟨rfl, ?_⟩
  rw [List.length_take]
  exact min_le_left _ _

/-- C9: processing any closing tag always resets the capture state
(`current_tag=None`, `current_data=""`), whatever the tag; consequently a
heading or paragraph interrupted by a nested element's closing tag is
dropped entirely and no text after that closing tag is recorded. -/
theorem claim_C9_endtag_always_resets :
    (∀ (st : WebScraper.SimpleHTMLParser) (tag : String),
      (st.handle_endtag tag).current_tag = Option.none ∧
      (st.handle_endtag tag).current_data = "") ∧
    (WebScraper.SimpleHTMLParser.feed nestedHeadingContent).h1 = [] ∧
    (WebScraper.SimpleHTMLParser.feed nestedParagraphContent).paragraphs = [] :=
  ⟨fun _ _ => ⟨rfl, rfl⟩, by rfl, by rfl⟩

/-- Every successful branch of the scraper dispatcher yields a dict. -/
theorem mainCore_ok_isObj (content t : String) (opts : WebScraper.Options) (v : Val)
    (h : WebScraper.mainCore content t opts = Except.ok v) : v.isObj = true := by
  simp only [WebScraper.mainCore] at h
  split_ifs at h
  · obtain ⟨_, _, _, _, _, hv⟩ := extractLinks_ok_structure _ _ _ _ h
    rw [hv]; rfl
  · injection h with h; rw [← h]; rfl
  · injection h with h; rw [← h]; rfl
  · injection h with h; rw [← h]; rfl
  · injection h with h; rw [← h]; rfl
  · injection h with h; rw [← h]; rfl
  · exact extractUrls_ok_isObj _ _ h
  · injection h with h; rw [← h]; rfl
  · injection h with h; rw [← h]; rfl

/-- C1 counterexample: with a base URL and an href holding an unmatched
bracket, `urljoin` raises `ValueError("Invalid IPv6 URL")`; the catch-all
returns `{"error": str(e), "extract_type": extract_type}` — there is no
`success` key at all, so the exception result is not
`{success: false, error: message}`. -/
theorem claim_C1_counterexample :
    WebScraper.mainCore ipv6Content "links" { base_url := "http://x.com" } =
      Except.error "Invalid IPv6 URL" ∧
    WebScraper.main ipv6Content "links" { base_url := "http://x.com" } =
      .obj [("error", .s "Invalid IPv6 URL"), ("extract_type", .s "links")] ∧
    (WebScraper.main ipv6Content "links" { base_url := "http://x.com" }).get "success" =
      Option.none :=
  ⟨by rfl, by rfl, by rfl⟩

/-- C1 amended: the dispatcher always returns a dict and never raises; an
unrecognized extract_type yields the error message with the list of the
eight valid types; an exception during extraction yields
`{"error": message, "extract_type": type}` (no success flag) instead of
propagating. -/
theorem claim_C1_dispatcher_never_raises :
    ∀ (content t : String) (opts : WebScraper.Options),
      Val.isObj (WebScraper.main content t opts) = true ∧
      (t ∉ WebScraper.validExtractTypes →
        WebScraper.main content t opts = .obj [
          ("error", .s ("Unknown extraction type: " ++ t)),
          ("available_types", .arr (WebScraper.validExtractTypes.map Val.s))]) ∧
      (∀ e, WebScraper.mainCore content t opts = Except.error e →
        WebScraper.main content t opts = .obj [("error", .s e), ("extract_type", .s t)]) := by
  intro content t opts
  refine ⟨?_, ?_, ?_⟩
  · unfold WebScraper.main
    cases h : WebScraper.mainCore content t opts with
    | ok v => exact mainCore_ok_isObj content t opts v h
    | error e => rfl
  · intro hmem
    unfold WebScraper.main WebScraper.mainCore
    split_ifs with h1 h2 h3 h4 h5 h6 h7 h8
    · subst h1; exact absurd (by decide) hmem
    · subst h2; exact absurd (by decide) hmem
    · subst h3; exact absurd (by decide) hmem
    · subst h4; exact absurd (by decide) hmem
    · subst h5; exact absurd (by decide) hmem
    · subst h6; exact absurd (by decide) hmem
    · subst h7; exact absurd (by decide) hmem
    · subst h8; exact absurd (by decide) hmem
    · rfl
  · intro e he
    unfold WebScraper.main
    rw [he]

/-- C1 witness: the unknown-type branch at `"bogus"`, and the caught
`Invalid IPv6 URL` exception on the bracket href. -/
theorem claim_C1_witness :
    WebScraper.main "" "bogus" {} = .obj [
      ("error", .s "Unknown extraction type: bogus"),
      ("available_types", .arr (WebScraper.validExtractTypes.map Val.s))] ∧
    WebScraper.main ipv6Content "links" { base_url := "http://x.com" } =
      .obj [("error", .s "Invalid IPv6 URL"), ("extract_type", .s "links")] :=
  ⟨(claim_C1_dispatcher_never_raises "" "bogus" {}).2.1 (by decide),
   (claim_C1_dispatcher_never_raises ipv6Content "links" { base_url := "http://x.com" }).2.2
     "Invalid IPv6 URL" (by rfl)⟩

/-- C5: every successful link extraction caps internal/external to 20 and
anchors to 10 (taking the first entries of each category in order) while
the stats report the true uncapped category sizes. -/
theorem claim_C5_link_caps_and_true_counts :
    ∀ (p : WebScraper.SimpleHTMLParser) (content : String) (opts : WebScraper.Options)
      (v : Val),
      WebScraper.extract_links p content opts = Except.ok v →
      ∃ links internal external anchors,
        WebScraper.categorize links opts.base_url = Except.ok (internal, external, anchors) ∧
        v = Val.obj [
          ("success", .b true),
          ("total_links", .i links.length),
          ("internal_links", .arr ((internal.take 20).map WebScraper.LinkRec.toVal)),
          ("external_links", .arr ((external.take 20).map WebScraper.LinkRec.toVal)),
          ("anchor_links", .arr ((anchors.take 10).map WebScraper.LinkRec.toVal)),
          ("stats", .obj [
            ("internal_count", .i internal.length),
            ("external_count", .i external.length),
            ("anchor_count", .i anchors.length)])] ∧
        (internal.take 20).length ≤ 20 ∧
        (external.take 20).length ≤ 20 ∧
        (anchors.take 10).length ≤ 10 := by
  intro p content opts v h
  obtain ⟨links, internal, external, anchors, hc, hv⟩ :=
    extractLinks_ok_structure p content opts v h
  refine ⟨links, internal, external, anchors, hc, hv, ?_, ?_, ?_⟩ <;>
    (rw [List.length_take]; exact min_le_left _ _)

/-- C5 witness: link extraction over a single anchor link. -/
theorem claim_C5_witness :
    ∃ links internal external anchors,
      WebScraper.categorize links "" = Except.ok (internal, external, anchors) ∧
      Val.obj [
        ("success", .b true),
        ("total_links", .i 1),
        ("internal_links", .arr []),
        ("external_links", .arr []),
        ("anchor_links", .arr [.obj [("href", .s "#a"), ("title", .s ""), ("rel", .s "")]]),
        ("stats", .obj [
          ("internal_count", .i 0),
          ("external_count", .i 0),
          ("anchor_count", .i 1)])] = Val.obj [
          ("success", .b true),
          ("total_links", .i links.length),
          ("internal_links", .arr ((internal.take 20).map WebScraper.LinkRec.toVal)),
          ("external_links", .arr ((external.take 20).map WebScraper.LinkRec.toVal)),
          ("anchor_links", .arr ((anchors.take 10).map WebScraper.LinkRec.toVal)),
          ("stats", .obj [
            ("internal_count", .i internal.length),
            ("external_count", .i external.length),
            ("anchor_count", .i anchors.length)])] ∧
        (internal.take 20).length ≤ 20 ∧
        (external.take 20).length ≤ 20 ∧
        (anchors.take 10).length ≤ 10 :=
  claim_C5_link_caps_and_true_counts
    (WebScraper.SimpleHTMLParser.feed anchorContent) anchorContent {}
    (Val.obj [
      ("success", .b true),
      ("total_links", .i 1),
      ("internal_links", .arr []),
      ("external_links", .arr []),
      ("anchor_links", .arr [.obj [("href", .s "#a"), ("title", .s ""), ("rel", .s "")]]),
      ("stats", .obj [
        ("internal_count", .i 0),
        ("external_count", .i 0),
        ("anchor_count", .i 1)])])
    (by rfl)

/-- C3: the text analyzer always returns a dict and never raises: empty
text yields `{error: message}`, an unknown analysis_type yields the error
with the available types, and each recognized type returns the
corresponding analysis mapping. -/
theorem claim_C3_analyzer_total_dispatch :
    ∀ (text analysis_type : String),
      Val.isObj (TextAnalyzer.main text analysis_type) = true ∧
      (text = "" →
        TextAnalyzer.main text analysis_type = .obj [("error", .s "No text provided")]) ∧
      (text ≠ "" → analysis_type ∉ TextAnalyzer.analysisTypes →
        TextAnalyzer.main text analysis_type = .obj [
          ("error", .s ("Unknown analysis type: " ++ analysis_type)),
          ("available", .arr (TextAnalyzer.analysisTypes.map Val.s))]) ∧
      (text ≠ "" → analysis_type = "basic" →
        TextAnalyzer.main text analysis_type = TextAnalyzer.basic_analysis text) ∧
      (text ≠ "" → analysis_type = "readability" →
        TextAnalyzer.main text analysis_type = TextAnalyzer.readability_analysis text) ∧
      (text ≠ "" → analysis_type = "frequency" →
        TextAnalyzer.main text analysis_type = TextAnalyzer.frequency_analysis text) ∧
      (text ≠ "" → analysis_type = "full" →
        TextAnalyzer.main text analysis_type = TextAnalyzer.full_analysis text) := by
  intro text analysis_type
  refine ⟨?_, ?_, ?_, ?_, ?_, ?_, ?_⟩
  · unfold TextAnalyzer.main
    split_ifs <;> rfl
  · intro h0
    simp [TextAnalyzer.main, h0]
  · intro hne hmem
    unfold TextAnalyzer.main
    split_ifs with h0 h1 h2 h3 h4
    · exact absurd h0 hne
    · subst h1; exact absurd (by decide) hmem
    · subst h2; exact absurd (by decide) hmem
    · subst h3; exact absurd (by decide) hmem
    · subst h4; exact absurd (by decide) hmem
    · rfl
  · intro hne heq; subst heq; simp [TextAnalyzer.main, hne]
  · intro hne heq; subst heq; simp [TextAnalyzer.main, hne]
  · intro hne heq; subst heq; simp [TextAnalyzer.main, hne]
  · intro hne heq; subst heq; simp [TextAnalyzer.main, hne]

/-- C3 witness: the empty-text branch, the unknown-type branch, and two
dispatched analyses. -/
theorem claim_C3_witness :
    TextAnalyzer.main "" "basic" = .obj [("error", .s "No text provided")] ∧
    TextAnalyzer.main "x" "bogus" = .obj [
      ("error", .s "Unknown analysis type: bogus"),
      ("available", .arr (TextAnalyzer.analysisTypes.map Val.s))] ∧
    TextAnalyzer.main "x" "basic" = TextAnalyzer.basic_analysis "x" ∧
    TextAnalyzer.main "x" "full" = TextAnalyzer.full_analysis "x" :=
  ⟨(claim_C3_analyzer_total_dispatch "" "basic").2.1 rfl,
   (claim_C3_analyzer_total_dispatch "x" "bogus").2.2.1 (by decide) (by decide),
   (claim_C3_analyzer_total_dispatch "x" "basic").2.2.2.1 (by decide) rfl,
   (claim_C3_analyzer_total_dispatch "x" "full").2.2.2.2.2.2 (by decide) rfl⟩

/-- C7: for numeric operands, dividing by zero returns the error dict and
never a division fault, and dividing by a nonzero operand returns
`result = a / b`. -/
theorem claim_C7_divide_by_zero_guard :
    ∀ (a bv : Val), SimpleMath.isNum a = true → SimpleMath.isNum bv = true →
      (SimpleMath.toQ bv = some 0 →
        SimpleMath.main "divide" a (some bv) =
          .obj [("error", .s "Division by zero is undefined")]) ∧
      (SimpleMath.toQ bv ≠ some 0 →
        (SimpleMath.main "divide" a (some bv)).get "result" =
          some (.f ((SimpleMath.toQ a).getD 0 / (SimpleMath.toQ bv).getD 0))) := by
  intro a bv ha hb
  constructor
  · intro h0
    simp [SimpleMath.main, SimpleMath.mainCore, h0, exceptPure_eq_ok]
  · intro hne
    cases hqa : SimpleMath.toQ a with
    | none => rw [SimpleMath.isNum, hqa] at ha; simp at ha
    | some x =>
      cases hqb : SimpleMath.toQ bv with
      | none => rw [SimpleMath.isNum, hqb] at hb; simp at hb
      | some y =>
        rw [hqb] at hne
        have hy : ¬(y = 0) := fun hy0 => hne (by rw [hy0])
        simp [SimpleMath.main, SimpleMath.mainCore, SimpleMath.pyDiv, hqa, hqb, hy,
          exceptPure_eq_ok, exceptBind_ok_eq, Val.get, List.find?]

/-- C7 witness: `6 / 3` and `6 / 0` with int operands. -/
theorem claim_C7_witness :
    SimpleMath.main "divide" (.i 6) (some (.i 0)) =
      .obj [("error", .s "Division by zero is undefined")] ∧
    (SimpleMath.main "divide" (.i 6) (some (.i 3))).get "result" = some (.f 2) :=
  ⟨(claim_C7_divide_by_zero_guard (.i 6) (.i 0) rfl rfl).1 rfl,
   by
     have h := (claim_C7_divide_by_zero_guard (.i 6) (.i 3) rfl rfl).2 (by decide)
     rw [h]
     norm_num [SimpleMath.toQ]⟩

/-- C10: the factorial branch errors for every operand that is not a
Python int (floats such as 5.0 included) and for negative ints, and
returns `result = a!` for every non-negative int. -/
theorem claim_C10_factorial_guard :
    ∀ (a : Val) (b : Option Val),
      (SimpleMath.pyIsInt a = false →
        SimpleMath.main "factorial" a b =
          .obj [("error", .s "Factorial requires a non-negative integer")]) ∧
      (∀ n : ℤ, SimpleMath.intOf a = some n → n < 0 →
        SimpleMath.main "factorial" a b =
          .obj [("error", .s "Factorial requires a non-negative integer")]) ∧
      (∀ n : ℤ, SimpleMath.intOf a = some n → 0 ≤ n →
        (SimpleMath.main "factorial" a b).get "result" =
          some (.i (Nat.factorial n.toNat))) := by
  intro a b
  refine ⟨?_, ?_, ?_⟩
  · intro hni
    simp [SimpleMath.main, SimpleMath.mainCore, hni, exceptPure_eq_ok]
  · intro n hn hneg
    have hti : SimpleMath.pyIsInt a = true := by rw [SimpleMath.pyIsInt, hn]; rfl
    simp [SimpleMath.main, SimpleMath.mainCore, hti, hn, hneg, not_le.mpr hneg,
      exceptPure_eq_ok]
  · intro n hn hpos
    have hti : SimpleMath.pyIsInt a = true := by rw [SimpleMath.pyIsInt, hn]; rfl
    simp [SimpleMath.main, SimpleMath.mainCore, hti, hn, not_lt.mpr hpos,
      exceptPure_eq_ok, Val.get, List.find?]

/-- C10 witness: `5.0` and `-1` error, `5` yields `120`. -/
theorem claim_C10_witness :
    SimpleMath.main "factorial" (.f 5) Option.none =
      .obj [("error", .s "Factorial requires a non-negative integer")] ∧
    SimpleMath.main "factorial" (.i (-1)) Option.none =
      .obj [("error", .s "Factorial requires a non-negative integer")] ∧
    (SimpleMath.main "factorial" (.i 5) Option.none).get "result" = some (.i 120) :=
  ⟨(claim_C10_factorial_guard (.f 5) Option.none).1 rfl,
   (claim_C10_factorial_guard (.i (-1)) Option.none).2.1 (-1) rfl (by decide),
   (claim_C10_factorial_guard (.i 5) Option.none).2.2 5 rfl (by decide)⟩

end DIYTools
